import Mathlib

/-!
Verification of the priority-based audio playback controller of
flag_quest_v2 (source: src/library/audioControlUtility.ts, the useAudioControl
hook).

Shallow embedding conventions:
* A sound handle (an HTMLAudioElement in the source) is a natural-number id.
  The observable device state of an element (paused flag, playback position,
  duration, volume, loop flag, playback rate) lives in a map from ids to
  AudioElem records, carried inside the controller state.
* JavaScript numbers that hold volumes, positions and durations are modelled
  as exact rationals; the literal 0.2 of the source is the rational 1/5.
* The controller refs of the hook (previousAudioRef, priorityAudioRef,
  bgMusicRef, audioMetadataRef, priorityQueueRef) are fields of the state
  record St.
* Device failure of HTMLAudioElement.play() (a rejected play promise, caught
  by the try/catch of the source) is modelled by a boolean oracle argument
  playOk: true means the device starts playback, false means play() throws
  and control reaches the catch branch.
* The installed onended closure of a play call (enhancedOnEnd in the source)
  captures the call's onEnd callback and priority flag; this is modelled as a
  Handler record stored per element, and the natural-end event is delivered
  by fireEnded. Caller-supplied completion callbacks are opaque: they are
  identified by a number and an execution log (onEndLog) records that they ran.
* Listener bookkeeping (cleanupEventListeners), the preload hint, the
  AudioContext resume and the visibilitychange listener have no effect on any
  state the claims mention and are not modelled; timeupdate/loadedmetadata
  driven metadata updates are likewise external stimuli no claim depends on.
-/

namespace AudioControl

/-- Observable device state of one audio element (HTMLAudioElement). -/
structure AudioElem where
  paused : Bool := true
  currentTime : ℚ := 0
  duration : ℚ := 0
  volume : ℚ := 1
  loop : Bool := false
  playbackRate : ℚ := 1
  deriving Repr, DecidableEq

/-- Options of one play call (interface AudioControlOptions of the source).
The onEnd callback is opaque and represented by an identifying number. -/
structure AudioControlOptions where
  stopPrevious : Bool := true
  volume : ℚ := 1
  loop : Bool := false
  onEnd : Option Nat := none
  priority : Bool := false
  ignorePriority : Bool := false
  queueIfBlocked : Bool := false
  playbackRate : Option ℚ := none
  deriving Repr, DecidableEq

/-- Playback metadata snapshot (interface AudioMetadata of the source). -/
structure AudioMetadata where
  duration : Option ℚ := none
  currentTime : ℚ := 0
  isPlaying : Bool := false
  deriving Repr, DecidableEq

/-- Background music bookkeeping (interface BackgroundMusicState). -/
structure BackgroundMusicState where
  audioRef : Option Nat := none
  volume : ℚ := 1
  isPlaying : Bool := false
  originalVolume : ℚ := 1
  enableDucking : Bool := true
  deriving Repr, DecidableEq

/-- Data captured by the enhancedOnEnd closure a play call installs as the
onended handler of its element. -/
structure Handler where
  onEnd : Option Nat := none
  priority : Bool := false
  deriving Repr, DecidableEq

/-- Whole controller state: the refs of the hook plus the device state of all
elements, the installed onended handlers, and a log of completion callbacks
that have run. -/
structure St where
  elems : Nat → AudioElem
  previousAudioRef : Option Nat := none
  priorityAudioRef : Option Nat := none
  bgMusic : BackgroundMusicState := {}
  audioMetadata : AudioMetadata := {}
  priorityQueue : List (Nat × AudioControlOptions) := []
  handlers : Nat → Option Handler := fun _ => none
  onEndLog : List Nat := []

/-- Pointwise update of the element map. -/
def updE (m : Nat → AudioElem) (h : Nat) (e : AudioElem) : Nat → AudioElem :=
  fun n => if n = h then e else m n

/-- Math.max(0, Math.min(1, v)) of the source. -/
def clamp01 (v : ℚ) : ℚ := max 0 (min 1 v)

/-- hasPriorityAudio: the priority slot holds an element that is not paused
and whose position is strictly below its duration. -/
def hasPriorityAudio (s : St) : Bool :=
  match s.priorityAudioRef with
  | none => false
  | some h =>
      !(s.elems h).paused && decide ((s.elems h).currentTime < (s.elems h).duration)

/-- stopAudio: pause the element and reset its position to 0
(listener cleanup has no modelled effect). -/
def stopAudio (h : Nat) (s : St) : St :=
  let e := { s.elems h with paused := true, currentTime := 0 }
  { s with elems := updE s.elems h e }

/-- setVolume: the exposed direct volume setter, clamping to [0,1]. -/
def setVolume (h : Nat) (v : ℚ) (s : St) : St :=
  let e := { s.elems h with volume := clamp01 v }
  { s with elems := updE s.elems h e }

/-- duckBackgroundMusic: when a background element is tracked, playing and
ducking is enabled, record the state's current volume field as originalVolume
and apply originalVolume * 0.2 to the element. -/
def duckBackgroundMusic (s : St) : St :=
  match s.bgMusic.audioRef with
  | some b =>
      if s.bgMusic.isPlaying && s.bgMusic.enableDucking then
        let e := { s.elems b with volume := s.bgMusic.volume * (1/5) }
        { s with
          bgMusic := { s.bgMusic with originalVolume := s.bgMusic.volume },
          elems := updE s.elems b e }
      else s
  | none => s

/-- restoreBackgroundMusic: when a background element is tracked, playing and
ducking is enabled, re-apply the recorded originalVolume to the element. -/
def restoreBackgroundMusic (s : St) : St :=
  match s.bgMusic.audioRef with
  | some b =>
      if s.bgMusic.isPlaying && s.bgMusic.enableDucking then
        let e := { s.elems b with volume := s.bgMusic.originalVolume }
        { s with elems := updE s.elems b e }
      else s
  | none => s

/-- Device effect of a successful play(): the element leaves the paused
state; its position is not touched by the source. -/
def startPlay (h : Nat) (s : St) : St :=
  let e := { s.elems h with paused := false }
  { s with elems := updE s.elems h e }

/-- Assignment of the loop flag on an element (audioRef.loop = true). -/
def setLoopTrue (h : Nat) (s : St) : St :=
  let e := { s.elems h with loop := true }
  { s with elems := updE s.elems h e }

/-- Assignment of a volume value on an element (audioRef.volume = v). -/
def setElemVolume (h : Nat) (v : ℚ) (s : St) : St :=
  let e := { s.elems h with volume := v }
  { s with elems := updE s.elems h e }

/-- Guarded stop: stop the element a slot holds, if any (the source's
pattern of an if around stopAudio on a possibly-null ref). -/
def optStop (o : Option Nat) (s : St) : St :=
  match o with
  | some x => stopAudio x s
  | none => s

/-- playBackgroundMusic: stop any tracked background element, set loop,
compute the (possibly pre-ducked) initial volume from the clamped request,
apply it, then start; only on a successful start is the BackgroundMusicState
record replaced (a throwing play() reaches the catch and leaves it as is). -/
def playBackgroundMusic (h : Nat) (volume : ℚ) (enableDucking : Bool)
    (playOk : Bool) (s : St) : St :=
  let s1 := optStop s.bgMusic.audioRef s
  let s2 := setLoopTrue h s1
  let normalizedVolume := clamp01 volume
  let shouldDuck := hasPriorityAudio s2 && enableDucking
  let initialVolume := if shouldDuck then normalizedVolume * (1/5) else normalizedVolume
  let s3 := setElemVolume h initialVolume s2
  if playOk then
    { startPlay h s3 with bgMusic :=
        { audioRef := some h, volume := initialVolume, isPlaying := true,
          originalVolume := normalizedVolume, enableDucking := enableDucking } }
  else s3

/-- stopBackgroundMusic: stop the tracked element and mark the state as not
playing; a no-op with no tracked element. -/
def stopBackgroundMusic (s : St) : St :=
  match s.bgMusic.audioRef with
  | some b =>
      let s1 := stopAudio b s
      { s1 with bgMusic := { s1.bgMusic with isPlaying := false } }
  | none => s

/-- setBackgroundMusicVolume: record the clamped request as originalVolume,
re-derive the applied volume from the current priority-audio state, and write
it to both the state's volume field and the element. -/
def setBackgroundMusicVolume (v : ℚ) (s : St) : St :=
  match s.bgMusic.audioRef with
  | some b =>
      let normalizedVolume := clamp01 v
      let finalVolume :=
        if hasPriorityAudio s && s.bgMusic.enableDucking then
          normalizedVolume * (1/5)
        else normalizedVolume
      let e := { s.elems b with volume := finalVolume }
      { s with
        bgMusic := { s.bgMusic with
          originalVolume := normalizedVolume, volume := finalVolume },
        elems := updE s.elems b e }
  | none => s

/-- setBackgroundMusicDucking: record the flag; disabling while priority
audio plays restores the element to originalVolume, enabling while priority
audio plays ducks the element to originalVolume * 0.2. -/
def setBackgroundMusicDucking (enableDucking : Bool) (s : St) : St :=
  match s.bgMusic.audioRef with
  | some b =>
      let s1 := { s with bgMusic := { s.bgMusic with enableDucking := enableDucking } }
      if !enableDucking && hasPriorityAudio s1 then
        let e := { s1.elems b with volume := s1.bgMusic.originalVolume }
        { s1 with elems := updE s1.elems b e }
      else if enableDucking && hasPriorityAudio s1 then
        let e := { s1.elems b with volume := s1.bgMusic.originalVolume * (1/5) }
        { s1 with elems := updE s1.elems b e }
      else s1
  | none => s

/-- configureAudio: of the configuration steps only the playbackRate
assignment changes modelled state, and the source guards it by JavaScript
truthiness (a playbackRate of 0 is not applied). -/
def configureAudio (h : Nat) (opts : AudioControlOptions) (s : St) : St :=
  match opts.playbackRate with
  | some r =>
      if r ≠ 0 then
        let e := { s.elems h with playbackRate := r }
        { s with elems := updE s.elems h e }
      else s
  | none => s

/-- Priority phase of playAudio: when the request carries the priority flag,
stop the current occupant of the priority slot, take the slot over, and duck
the background music. -/
def prioPhase (h : Nat) (opts : AudioControlOptions) (s : St) : St :=
  if opts.priority then
    let sa := match s.priorityAudioRef with
              | some q => stopAudio q s
              | none => s
    duckBackgroundMusic { sa with priorityAudioRef := some h }
  else s

/-- Stop-previous phase of playAudio: when stopPrevious is set and the
previous slot is populated, stop its element. -/
def stopPrevPhase (opts : AudioControlOptions) (s : St) : St :=
  if opts.stopPrevious then
    match s.previousAudioRef with
    | some p => stopAudio p s
    | none => s
  else s

/-- Setup phase of playAudio: configuration, the raw (unclamped) volume and
loop assignment, onended handler installation, and the unconditional
previous-slot assignment of the source. -/
def setupPhase (h : Nat) (opts : AudioControlOptions) (s : St) : St :=
  let s3 := configureAudio h opts s
  let e4 := { s3.elems h with volume := opts.volume, loop := opts.loop }
  let s4 := { s3 with elems := updE s3.elems h e4 }
  let hnd : Handler := { onEnd := opts.onEnd, priority := opts.priority }
  { s4 with
    handlers := fun n => if n = h then some hnd else s4.handlers n,
    previousAudioRef := some h }

/-- playAudio (the play operation). Mirrors the source order: priority-block
check (with optional queuing), priority-slot takeover plus ducking, stop of
the previous slot, configuration, raw volume and loop assignment, handler
installation, unconditional previous-slot assignment, then the awaited
play() whose failure reaches the catch and returns false. -/
def playAudio (h : Nat) (opts : AudioControlOptions) (playOk : Bool) (s : St) :
    Bool × St :=
  if !opts.ignorePriority && hasPriorityAudio s && !opts.priority then
    if opts.queueIfBlocked then
      (false, { s with priorityQueue := s.priorityQueue ++ [(h, opts)] })
    else (false, s)
  else
    let s5 := setupPhase h opts (stopPrevPhase opts (prioPhase h opts s))
    if playOk then
      let s6 := startPlay h s5
      (true, { s6 with audioMetadata := { s6.audioMetadata with isPlaying := true } })
    else (false, s5)

/-- Execution of the caller-supplied completion callback captured by the
handler: its identifier is appended to the run log. -/
def logCallback (ctx : Handler) (s : St) : St :=
  match ctx.onEnd with
  | some c => { s with onEndLog := s.onEndLog ++ [c] }
  | none => s

/-- enhancedOnEnd: run the captured completion callback, and when the
installing call was a priority play, clear the priority slot, restore the
background music, and shift-and-play the queue front with ignorePriority
forced true; the oracle playOkNext decides that nested play() call. -/
def enhancedOnEnd (ctx : Handler) (playOkNext : Bool) (s : St) : St :=
  let s0 := logCallback ctx s
  if ctx.priority then
    let s1 := restoreBackgroundMusic { s0 with priorityAudioRef := none }
    match s1.priorityQueue with
    | [] => s1
    | (a, o) :: rest =>
        (playAudio a { o with ignorePriority := true } playOkNext
          { s1 with priorityQueue := rest }).2
  else s0

/-- Device effect of the natural-end event on element h: the element becomes
paused at its duration, and the attached pause listener clears the metadata
isPlaying flag. -/
def afterEndEvent (h : Nat) (s : St) : St :=
  let e := { s.elems h with paused := true, currentTime := (s.elems h).duration }
  { s with
    elems := updE s.elems h e,
    audioMetadata := { s.audioMetadata with isPlaying := false } }

/-- Delivery of the natural-end event of element h: the device marks the
element paused at its duration, then the installed onended handler runs. -/
def fireEnded (h : Nat) (playOkNext : Bool) (s : St) : St :=
  match s.handlers h with
  | none => s
  | some ctx => enhancedOnEnd ctx playOkNext (afterEndEvent h s)

/-- cleanup: stop the previous, priority and background elements; queued
entries only get their listeners detached (no device stop in the source);
then reset every controller field to its initial value. -/
def cleanup (s : St) : St :=
  let s1 := optStop s.previousAudioRef s
  let s2 := optStop s1.priorityAudioRef s1
  let s3 := optStop s2.bgMusic.audioRef s2
  { s3 with
    previousAudioRef := none,
    priorityAudioRef := none,
    bgMusic := {},
    priorityQueue := [],
    audioMetadata := {} }

/-- getAudioMetadata query. -/
def getAudioMetadata (s : St) : AudioMetadata := s.audioMetadata

/-- Caller-visible projection returned by getBackgroundMusicState. -/
structure BGView where
  isPlaying : Bool
  volume : ℚ
  originalVolume : ℚ
  enableDucking : Bool
  deriving Repr, DecidableEq

/-- getBackgroundMusicState query. -/
def getBackgroundMusicState (s : St) : BGView :=
  { isPlaying := s.bgMusic.isPlaying, volume := s.bgMusic.volume,
    originalVolume := s.bgMusic.originalVolume,
    enableDucking := s.bgMusic.enableDucking }

/-- Volume the spec's ducking rule prescribes for the background element. -/
def dueVolume (s : St) : ℚ :=
  if hasPriorityAudio s && s.bgMusic.enableDucking then
    s.bgMusic.originalVolume * (1/5)
  else s.bgMusic.originalVolume

/-- Decidable form of the spec's background-volume invariant: whenever a
background track is tracked and playing, the volume applied to its element
is exactly the one the ducking rule prescribes. -/
def bgInvB (s : St) : Bool :=
  match s.bgMusic.audioRef with
  | none => true
  | some b => !s.bgMusic.isPlaying || decide ((s.elems b).volume = dueVolume s)

/-! Concrete states used by witnesses and counterexamples. -/

/-- Environment with every element fresh: paused at position 0, ten units
long, unit volume. -/
def st0 : St := { elems := fun _ => { duration := 10 } }

/-- A state whose priority slot holds element 1, audibly playing. -/
def stP : St :=
  { elems := fun n => if n = 1 then { paused := false, duration := 10 }
                      else { duration := 10 },
    priorityAudioRef := some 1 }

/-- State after an ordinary successful effect play of element 1: the previous
slot holds element 1. -/
def u1 : St := (playAudio 1 {} true st0).2

/-! Helper lemmas about the building blocks. -/

@[simp]
lemma updE_apply (m : Nat → AudioElem) (h : Nat) (e : AudioElem) (n : Nat) :
    updE m h e n = if n = h then e else m n := rfl

lemma stopAudio_previousAudioRef (q : Nat) (s : St) :
    (stopAudio q s).previousAudioRef = s.previousAudioRef := rfl

lemma stopAudio_priorityAudioRef (q : Nat) (s : St) :
    (stopAudio q s).priorityAudioRef = s.priorityAudioRef := rfl

lemma stopAudio_bgMusic (q : Nat) (s : St) :
    (stopAudio q s).bgMusic = s.bgMusic := rfl

lemma stopAudio_priorityQueue (q : Nat) (s : St) :
    (stopAudio q s).priorityQueue = s.priorityQueue := rfl

lemma stopAudio_onEndLog (q : Nat) (s : St) :
    (stopAudio q s).onEndLog = s.onEndLog := rfl

lemma stopAudio_elems_ne (q n : Nat) (s : St) (hne : n ≠ q) :
    (stopAudio q s).elems n = s.elems n := by
  simp [stopAudio, hne]

lemma stopAudio_paused (q : Nat) (s : St) :
    ((stopAudio q s).elems q).paused = true := by
  simp [stopAudio]

lemma stopAudio_currentTime (q : Nat) (s : St) :
    ((stopAudio q s).elems q).currentTime = 0 := by
  simp [stopAudio]

lemma stopAudio_volume (q n : Nat) (s : St) :
    ((stopAudio q s).elems n).volume = (s.elems n).volume := by
  by_cases hn : n = q <;> simp [stopAudio, hn]

lemma stopAudio_duration (q n : Nat) (s : St) :
    ((stopAudio q s).elems n).duration = (s.elems n).duration := by
  by_cases hn : n = q <;> simp [stopAudio, hn]

lemma startPlay_elems_ne (q n : Nat) (s : St) (hne : n ≠ q) :
    (startPlay q s).elems n = s.elems n := by
  simp [startPlay, hne]

lemma startPlay_volume (q n : Nat) (s : St) :
    ((startPlay q s).elems n).volume = (s.elems n).volume := by
  by_cases hn : n = q <;> simp [startPlay, hn]

lemma startPlay_bgMusic (q : Nat) (s : St) :
    (startPlay q s).bgMusic = s.bgMusic := rfl

lemma startPlay_priorityAudioRef (q : Nat) (s : St) :
    (startPlay q s).priorityAudioRef = s.priorityAudioRef := rfl

lemma configureAudio_elems_ne (q n : Nat) (o : AudioControlOptions) (s : St)
    (hne : n ≠ q) : (configureAudio q o s).elems n = s.elems n := by
  unfold configureAudio
  cases o.playbackRate with
  | none => rfl
  | some r => by_cases hr : r ≠ 0 <;> simp [hr, hne]

lemma configureAudio_volume (q n : Nat) (o : AudioControlOptions) (s : St) :
    ((configureAudio q o s).elems n).volume = (s.elems n).volume := by
  unfold configureAudio
  cases o.playbackRate with
  | none => rfl
  | some r =>
      by_cases hr : r ≠ 0
      · by_cases hn : n = q <;> simp [hr, hn]
      · simp [hr]

lemma configureAudio_paused (q n : Nat) (o : AudioControlOptions) (s : St) :
    ((configureAudio q o s).elems n).paused = (s.elems n).paused := by
  unfold configureAudio
  cases o.playbackRate with
  | none => rfl
  | some r =>
      by_cases hr : r ≠ 0
      · by_cases hn : n = q <;> simp [hr, hn]
      · simp [hr]

lemma configureAudio_currentTime (q n : Nat) (o : AudioControlOptions) (s : St) :
    ((configureAudio q o s).elems n).currentTime = (s.elems n).currentTime := by
  unfold configureAudio
  cases o.playbackRate with
  | none => rfl
  | some r =>
      by_cases hr : r ≠ 0
      · by_cases hn : n = q <;> simp [hr, hn]
      · simp [hr]

lemma configureAudio_duration (q n : Nat) (o : AudioControlOptions) (s : St) :
    ((configureAudio q o s).elems n).duration = (s.elems n).duration := by
  unfold configureAudio
  cases o.playbackRate with
  | none => rfl
  | some r =>
      by_cases hr : r ≠ 0
      · by_cases hn : n = q <;> simp [hr, hn]
      · simp [hr]

lemma configureAudio_bgMusic (q : Nat) (o : AudioControlOptions) (s : St) :
    (configureAudio q o s).bgMusic = s.bgMusic := by
  unfold configureAudio
  cases o.playbackRate with
  | none => rfl
  | some r => by_cases hr : r ≠ 0 <;> simp [hr]

lemma configureAudio_previousAudioRef (q : Nat) (o : AudioControlOptions) (s : St) :
    (configureAudio q o s).previousAudioRef = s.previousAudioRef := by
  unfold configureAudio
  cases o.playbackRate with
  | none => rfl
  | some r => by_cases hr : r ≠ 0 <;> simp [hr]

lemma configureAudio_priorityAudioRef (q : Nat) (o : AudioControlOptions) (s : St) :
    (configureAudio q o s).priorityAudioRef = s.priorityAudioRef := by
  unfold configureAudio
  cases o.playbackRate with
  | none => rfl
  | some r => by_cases hr : r ≠ 0 <;> simp [hr]

lemma duckBackgroundMusic_previousAudioRef (s : St) :
    (duckBackgroundMusic s).previousAudioRef = s.previousAudioRef := by
  unfold duckBackgroundMusic
  cases s.bgMusic.audioRef with
  | none => rfl
  | some b => by_cases hc : s.bgMusic.isPlaying && s.bgMusic.enableDucking <;> simp [hc]

lemma duckBackgroundMusic_priorityAudioRef (s : St) :
    (duckBackgroundMusic s).priorityAudioRef = s.priorityAudioRef := by
  unfold duckBackgroundMusic
  cases s.bgMusic.audioRef with
  | none => rfl
  | some b => by_cases hc : s.bgMusic.isPlaying && s.bgMusic.enableDucking <;> simp [hc]

lemma duckBackgroundMusic_paused (n : Nat) (s : St) :
    ((duckBackgroundMusic s).elems n).paused = (s.elems n).paused := by
  unfold duckBackgroundMusic
  cases s.bgMusic.audioRef with
  | none => rfl
  | some b =>
      by_cases hc : s.bgMusic.isPlaying && s.bgMusic.enableDucking
      · by_cases hn : n = b <;> simp [hc, hn]
      · simp [hc]

lemma duckBackgroundMusic_currentTime (n : Nat) (s : St) :
    ((duckBackgroundMusic s).elems n).currentTime = (s.elems n).currentTime := by
  unfold duckBackgroundMusic
  cases s.bgMusic.audioRef with
  | none => rfl
  | some b =>
      by_cases hc : s.bgMusic.isPlaying && s.bgMusic.enableDucking
      · by_cases hn : n = b <;> simp [hc, hn]
      · simp [hc]

lemma duckBackgroundMusic_duration (n : Nat) (s : St) :
    ((duckBackgroundMusic s).elems n).duration = (s.elems n).duration := by
  unfold duckBackgroundMusic
  cases s.bgMusic.audioRef with
  | none => rfl
  | some b =>
      by_cases hc : s.bgMusic.isPlaying && s.bgMusic.enableDucking
      · by_cases hn : n = b <;> simp [hc, hn]
      · simp [hc]

lemma duckBackgroundMusic_priorityQueue (s : St) :
    (duckBackgroundMusic s).priorityQueue = s.priorityQueue := by
  unfold duckBackgroundMusic
  cases s.bgMusic.audioRef with
  | none => rfl
  | some b => by_cases hc : s.bgMusic.isPlaying && s.bgMusic.enableDucking <;> simp [hc]

lemma duckBackgroundMusic_bg_audioRef (s : St) :
    (duckBackgroundMusic s).bgMusic.audioRef = s.bgMusic.audioRef := by
  unfold duckBackgroundMusic
  cases hb : s.bgMusic.audioRef with
  | none => simp [hb]
  | some b =>
      by_cases hc : s.bgMusic.isPlaying && s.bgMusic.enableDucking <;> simp [hb, hc]

lemma duckBackgroundMusic_bg_isPlaying (s : St) :
    (duckBackgroundMusic s).bgMusic.isPlaying = s.bgMusic.isPlaying := by
  unfold duckBackgroundMusic
  cases hb : s.bgMusic.audioRef with
  | none => simp [hb]
  | some b =>
      by_cases hc : s.bgMusic.isPlaying && s.bgMusic.enableDucking <;> simp [hb, hc]

lemma duckBackgroundMusic_bg_enableDucking (s : St) :
    (duckBackgroundMusic s).bgMusic.enableDucking = s.bgMusic.enableDucking := by
  unfold duckBackgroundMusic
  cases hb : s.bgMusic.audioRef with
  | none => simp [hb]
  | some b =>
      by_cases hc : s.bgMusic.isPlaying && s.bgMusic.enableDucking <;> simp [hb, hc]

lemma duckBackgroundMusic_applied (b : Nat) (s : St)
    (hb : s.bgMusic.audioRef = some b) (hp : s.bgMusic.isPlaying = true)
    (hd : s.bgMusic.enableDucking = true) :
    ((duckBackgroundMusic s).elems b).volume = s.bgMusic.volume * (1/5) ∧
    (duckBackgroundMusic s).bgMusic.originalVolume = s.bgMusic.volume := by
  unfold duckBackgroundMusic
  simp [hb, hp, hd]

lemma duckBackgroundMusic_skip_ducking (s : St)
    (hd : s.bgMusic.enableDucking = false) : duckBackgroundMusic s = s := by
  unfold duckBackgroundMusic
  cases s.bgMusic.audioRef with
  | none => rfl
  | some b => simp [hd]

lemma duckBackgroundMusic_skip_stopped (s : St)
    (hp : s.bgMusic.isPlaying = false) : duckBackgroundMusic s = s := by
  unfold duckBackgroundMusic
  cases s.bgMusic.audioRef with
  | none => rfl
  | some b => simp [hp]

lemma duckBackgroundMusic_skip_none (s : St)
    (hb : s.bgMusic.audioRef = none) : duckBackgroundMusic s = s := by
  unfold duckBackgroundMusic
  simp [hb]

lemma duckBackgroundMusic_volume_ne (n : Nat) (s : St)
    (hne : s.bgMusic.audioRef ≠ some n) :
    ((duckBackgroundMusic s).elems n).volume = (s.elems n).volume := by
  unfold duckBackgroundMusic
  cases hb : s.bgMusic.audioRef with
  | none => rfl
  | some b =>
      by_cases hc : s.bgMusic.isPlaying && s.bgMusic.enableDucking
      · have hnb : n ≠ b := by rintro rfl; exact hne hb
        simp [hc, hnb]
      · simp [hc]

lemma restoreBackgroundMusic_applied (b : Nat) (s : St)
    (hb : s.bgMusic.audioRef = some b) (hp : s.bgMusic.isPlaying = true)
    (hd : s.bgMusic.enableDucking = true) :
    ((restoreBackgroundMusic s).elems b).volume = s.bgMusic.originalVolume := by
  unfold restoreBackgroundMusic
  simp [hb, hp, hd]

lemma restoreBackgroundMusic_skip_ducking (s : St)
    (hd : s.bgMusic.enableDucking = false) : restoreBackgroundMusic s = s := by
  unfold restoreBackgroundMusic
  cases s.bgMusic.audioRef with
  | none => rfl
  | some b => simp [hd]

lemma restoreBackgroundMusic_skip_stopped (s : St)
    (hp : s.bgMusic.isPlaying = false) : restoreBackgroundMusic s = s := by
  unfold restoreBackgroundMusic
  cases s.bgMusic.audioRef with
  | none => rfl
  | some b => simp [hp]

lemma restoreBackgroundMusic_bgMusic (s : St) :
    (restoreBackgroundMusic s).bgMusic = s.bgMusic := by
  unfold restoreBackgroundMusic
  cases hb : s.bgMusic.audioRef with
  | none => simp [hb]
  | some b =>
      by_cases hc : s.bgMusic.isPlaying && s.bgMusic.enableDucking <;> simp [hb, hc]

lemma restoreBackgroundMusic_priorityAudioRef (s : St) :
    (restoreBackgroundMusic s).priorityAudioRef = s.priorityAudioRef := by
  unfold restoreBackgroundMusic
  cases s.bgMusic.audioRef with
  | none => rfl
  | some b => by_cases hc : s.bgMusic.isPlaying && s.bgMusic.enableDucking <;> simp [hc]

lemma restoreBackgroundMusic_priorityQueue (s : St) :
    (restoreBackgroundMusic s).priorityQueue = s.priorityQueue := by
  unfold restoreBackgroundMusic
  cases s.bgMusic.audioRef with
  | none => rfl
  | some b => by_cases hc : s.bgMusic.isPlaying && s.bgMusic.enableDucking <;> simp [hc]

lemma restoreBackgroundMusic_onEndLog (s : St) :
    (restoreBackgroundMusic s).onEndLog = s.onEndLog := by
  unfold restoreBackgroundMusic
  cases s.bgMusic.audioRef with
  | none => rfl
  | some b => by_cases hc : s.bgMusic.isPlaying && s.bgMusic.enableDucking <;> simp [hc]

lemma restoreBackgroundMusic_paused (n : Nat) (s : St) :
    ((restoreBackgroundMusic s).elems n).paused = (s.elems n).paused := by
  unfold restoreBackgroundMusic
  cases s.bgMusic.audioRef with
  | none => rfl
  | some b =>
      by_cases hc : s.bgMusic.isPlaying && s.bgMusic.enableDucking
      · by_cases hn : n = b <;> simp [hc, hn]
      · simp [hc]

/-! Phase lemmas for playAudio. -/

lemma prioPhase_not (h : Nat) (o : AudioControlOptions) (s : St)
    (ho : o.priority = false) : prioPhase h o s = s := by
  simp [prioPhase, ho]

lemma prioPhase_some (h q : Nat) (o : AudioControlOptions) (s : St)
    (ho : o.priority = true) (hq : s.priorityAudioRef = some q) :
    prioPhase h o s =
      duckBackgroundMusic { stopAudio q s with priorityAudioRef := some h } := by
  simp [prioPhase, ho, hq]

lemma prioPhase_slot_empty (h : Nat) (o : AudioControlOptions) (s : St)
    (ho : o.priority = true) (hq : s.priorityAudioRef = none) :
    prioPhase h o s = duckBackgroundMusic { s with priorityAudioRef := some h } := by
  simp [prioPhase, ho, hq]

lemma prioPhase_previousAudioRef (h : Nat) (o : AudioControlOptions) (s : St) :
    (prioPhase h o s).previousAudioRef = s.previousAudioRef := by
  unfold prioPhase
  by_cases ho : o.priority
  · cases hq : s.priorityAudioRef <;>
      simp [ho, hq, duckBackgroundMusic_previousAudioRef, stopAudio_previousAudioRef]
  · simp [ho]

lemma prioPhase_priorityAudioRef (h : Nat) (o : AudioControlOptions) (s : St) :
    (prioPhase h o s).priorityAudioRef =
      if o.priority then some h else s.priorityAudioRef := by
  unfold prioPhase
  by_cases ho : o.priority
  · cases hq : s.priorityAudioRef <;> simp [ho, hq, duckBackgroundMusic_priorityAudioRef]
  · simp [ho]

lemma prioPhase_priorityQueue (h : Nat) (o : AudioControlOptions) (s : St) :
    (prioPhase h o s).priorityQueue = s.priorityQueue := by
  unfold prioPhase
  by_cases ho : o.priority
  · cases hq : s.priorityAudioRef <;>
      simp [ho, hq, duckBackgroundMusic_priorityQueue, stopAudio_priorityQueue]
  · simp [ho]

lemma prioPhase_bg_audioRef (h : Nat) (o : AudioControlOptions) (s : St) :
    (prioPhase h o s).bgMusic.audioRef = s.bgMusic.audioRef := by
  unfold prioPhase
  by_cases ho : o.priority
  · cases hq : s.priorityAudioRef <;>
      simp [ho, hq, duckBackgroundMusic_bg_audioRef, stopAudio_bgMusic]
  · simp [ho]

lemma prioPhase_bg_isPlaying (h : Nat) (o : AudioControlOptions) (s : St) :
    (prioPhase h o s).bgMusic.isPlaying = s.bgMusic.isPlaying := by
  unfold prioPhase
  by_cases ho : o.priority
  · cases hq : s.priorityAudioRef <;>
      simp [ho, hq, duckBackgroundMusic_bg_isPlaying, stopAudio_bgMusic]
  · simp [ho]

lemma prioPhase_bg_enableDucking (h : Nat) (o : AudioControlOptions) (s : St) :
    (prioPhase h o s).bgMusic.enableDucking = s.bgMusic.enableDucking := by
  unfold prioPhase
  by_cases ho : o.priority
  · cases hq : s.priorityAudioRef <;>
      simp [ho, hq, duckBackgroundMusic_bg_enableDucking, stopAudio_bgMusic]
  · simp [ho]

lemma stopPrevPhase_skip (o : AudioControlOptions) (s : St)
    (ho : o.stopPrevious = false) : stopPrevPhase o s = s := by
  simp [stopPrevPhase, ho]

lemma stopPrevPhase_stop (p : Nat) (o : AudioControlOptions) (s : St)
    (ho : o.stopPrevious = true) (hp : s.previousAudioRef = some p) :
    stopPrevPhase o s = stopAudio p s := by
  simp [stopPrevPhase, ho, hp]

lemma stopPrevPhase_empty (o : AudioControlOptions) (s : St)
    (hp : s.previousAudioRef = none) : stopPrevPhase o s = s := by
  unfold stopPrevPhase
  by_cases ho : o.stopPrevious <;> simp [ho, hp]

lemma stopPrevPhase_bgMusic (o : AudioControlOptions) (s : St) :
    (stopPrevPhase o s).bgMusic = s.bgMusic := by
  unfold stopPrevPhase
  by_cases ho : o.stopPrevious
  · cases hp : s.previousAudioRef <;> simp [ho, hp, stopAudio_bgMusic]
  · simp [ho]

lemma stopPrevPhase_priorityAudioRef (o : AudioControlOptions) (s : St) :
    (stopPrevPhase o s).priorityAudioRef = s.priorityAudioRef := by
  unfold stopPrevPhase
  by_cases ho : o.stopPrevious
  · cases hp : s.previousAudioRef <;> simp [ho, hp, stopAudio_priorityAudioRef]
  · simp [ho]

lemma stopPrevPhase_previousAudioRef (o : AudioControlOptions) (s : St) :
    (stopPrevPhase o s).previousAudioRef = s.previousAudioRef := by
  unfold stopPrevPhase
  by_cases ho : o.stopPrevious
  · cases hp : s.previousAudioRef <;> simp [ho, hp, stopAudio_previousAudioRef]
  · simp [ho]

lemma stopPrevPhase_priorityQueue (o : AudioControlOptions) (s : St) :
    (stopPrevPhase o s).priorityQueue = s.priorityQueue := by
  unfold stopPrevPhase
  by_cases ho : o.stopPrevious
  · cases hp : s.previousAudioRef <;> simp [ho, hp, stopAudio_priorityQueue]
  · simp [ho]

lemma stopPrevPhase_volume (n : Nat) (o : AudioControlOptions) (s : St) :
    ((stopPrevPhase o s).elems n).volume = (s.elems n).volume := by
  unfold stopPrevPhase
  by_cases ho : o.stopPrevious
  · cases hp : s.previousAudioRef <;> simp [ho, hp, stopAudio_volume]
  · simp [ho]

lemma stopPrevPhase_duration (n : Nat) (o : AudioControlOptions) (s : St) :
    ((stopPrevPhase o s).elems n).duration = (s.elems n).duration := by
  unfold stopPrevPhase
  by_cases ho : o.stopPrevious
  · cases hp : s.previousAudioRef <;> simp [ho, hp, stopAudio_duration]
  · simp [ho]

lemma stopPrevPhase_stopped_mono (n : Nat) (o : AudioControlOptions) (s : St)
    (hpa : (s.elems n).paused = true) (hct : (s.elems n).currentTime = 0) :
    ((stopPrevPhase o s).elems n).paused = true ∧
    ((stopPrevPhase o s).elems n).currentTime = 0 := by
  unfold stopPrevPhase
  by_cases ho : o.stopPrevious
  · cases hp : s.previousAudioRef with
    | none => simp [ho, hp, hpa, hct]
    | some p =>
        by_cases hn : n = p
        · subst hn; simp [ho, hp, stopAudio_paused, stopAudio_currentTime]
        · simp [ho, hp, stopAudio_elems_ne _ _ _ hn, hpa, hct]
  · simp [ho, hpa, hct]

lemma setupPhase_previousAudioRef (h : Nat) (o : AudioControlOptions) (s : St) :
    (setupPhase h o s).previousAudioRef = some h := rfl

lemma setupPhase_priorityAudioRef (h : Nat) (o : AudioControlOptions) (s : St) :
    (setupPhase h o s).priorityAudioRef = s.priorityAudioRef := by
  simp [setupPhase, configureAudio_priorityAudioRef]

lemma setupPhase_bgMusic (h : Nat) (o : AudioControlOptions) (s : St) :
    (setupPhase h o s).bgMusic = s.bgMusic := by
  simp [setupPhase, configureAudio_bgMusic]

lemma setupPhase_elems_ne (h n : Nat) (o : AudioControlOptions) (s : St)
    (hne : n ≠ h) : (setupPhase h o s).elems n = (configureAudio h o s).elems n := by
  simp [setupPhase, hne]

lemma setupPhase_handlers_self (h : Nat) (o : AudioControlOptions) (s : St) :
    (setupPhase h o s).handlers h =
      some { onEnd := o.onEnd, priority := o.priority } := by
  simp [setupPhase]

lemma setupPhase_volume_self (h : Nat) (o : AudioControlOptions) (s : St) :
    ((setupPhase h o s).elems h).volume = o.volume := by
  simp [setupPhase]

lemma setupPhase_paused_self (h : Nat) (o : AudioControlOptions) (s : St) :
    ((setupPhase h o s).elems h).paused = (s.elems h).paused := by
  simp [setupPhase, configureAudio_paused]

lemma setupPhase_currentTime_self (h : Nat) (o : AudioControlOptions) (s : St) :
    ((setupPhase h o s).elems h).currentTime = (s.elems h).currentTime := by
  simp [setupPhase, configureAudio_currentTime]

lemma setupPhase_duration_self (h : Nat) (o : AudioControlOptions) (s : St) :
    ((setupPhase h o s).elems h).duration = (s.elems h).duration := by
  simp [setupPhase, configureAudio_duration]


/-! Claim C1. -/

/-- C1: when a priority sound is currently audible and the request carries
neither the priority nor the ignorePriority flag, playAudio returns false,
starts no playback, and appends the pair of handle and options to the back of
the priority queue exactly when queueIfBlocked is set; otherwise the state is
unchanged. -/
theorem c1_blocked_request_queues (h : Nat) (opts : AudioControlOptions)
    (ok : Bool) (s : St) (hp : hasPriorityAudio s = true)
    (hpr : opts.priority = false) (hip : opts.ignorePriority = false) :
    playAudio h opts ok s =
      (false,
        if opts.queueIfBlocked then
          { s with priorityQueue := s.priorityQueue ++ [(h, opts)] }
        else s) := by
  by_cases hqb : opts.queueIfBlocked <;> simp [playAudio, hp, hpr, hip, hqb]

/-- C1 witness: a concrete blocked request with queueIfBlocked set is
appended to the queue and rejected. -/
theorem c1_blocked_request_queues_witness :
    hasPriorityAudio stP = true ∧
    playAudio 2 { queueIfBlocked := true } true stP =
      (false,
        { stP with priorityQueue :=
            stP.priorityQueue ++ [(2, { queueIfBlocked := true })] }) := by
  refine ⟨by decide, ?_⟩
  have hmain :=
    c1_blocked_request_queues 2 { queueIfBlocked := true } true stP (by decide) rfl rfl
  simpa using hmain

/-! Claim C4 (code bug). -/

/-- C4, evaluated at the failing input: after an ordinary successful play of
element 1, a priority play of element 2 overwrites the previous slot with 2,
and a failed play of element 3 returns false yet still overwrites the
previous slot with 3 — the source assigns previousAudioRef unconditionally
before awaiting play(), contradicting both the claim and the source's own
comment that previousAudioRef tracks the last played non-priority audio. -/
theorem c4_previous_slot_overwritten :
    u1.previousAudioRef = some 1 ∧
    (playAudio 2 { priority := true } true u1).2.previousAudioRef = some 2 ∧
    (playAudio 3 {} false u1).1 = false ∧
    (playAudio 3 {} false u1).2.previousAudioRef = some 3 := by
  decide

/-! Claim C5 (code bug). -/

/-- C5, evaluated at the failing input: an admitted play call applies the raw
requested volume with no clamping — a request of 3/2 is applied as 3/2 and a
request of -(1/2) as -(1/2), while the clamp the spec describes (and the
source's own setVolume helper implements) would give 1 and 0. -/
theorem c5_volume_applied_unclamped :
    ((playAudio 1 { volume := 3/2 } true st0).2.elems 1).volume = 3/2 ∧
    clamp01 (3/2) = 1 ∧ ((3 : ℚ)/2 ≠ 1) ∧
    ((playAudio 4 { volume := -(1/2) } true st0).2.elems 4).volume = -(1/2) ∧
    clamp01 (-(1/2)) = 0 := by
  exact ⟨rfl, by norm_num [clamp01], by norm_num, rfl, by norm_num [clamp01]⟩

/-! Claim C7. -/

/-- C7: an admitted play call whose start fails returns false (the device
error is caught inside playAudio, never propagated: the operation is a total
function into Bool), and every state mutation made before the failure
stands with no rollback — the new handle occupies the priority slot, the
superseded priority element stays stopped, the background duck stays
applied, the stopped previous element stays stopped, and the previous slot
holds the new handle. -/
theorem c7_failed_start_keeps_mutations (h : Nat) (opts : AudioControlOptions)
    (s : St)
    (hadm : (!opts.ignorePriority && hasPriorityAudio s && !opts.priority) = false) :
    (playAudio h opts false s).1 = false ∧
    (playAudio h opts false s).2 =
      setupPhase h opts (stopPrevPhase opts (prioPhase h opts s)) ∧
    (playAudio h opts false s).2.previousAudioRef = some h ∧
    (opts.priority = true → (playAudio h opts false s).2.priorityAudioRef = some h) ∧
    (opts.priority = true → ∀ q, s.priorityAudioRef = some q → q ≠ h →
      ((playAudio h opts false s).2.elems q).paused = true ∧
      ((playAudio h opts false s).2.elems q).currentTime = 0) ∧
    (opts.priority = true → ∀ b, s.bgMusic.audioRef = some b → b ≠ h →
      s.bgMusic.isPlaying = true → s.bgMusic.enableDucking = true →
      ((playAudio h opts false s).2.elems b).volume = s.bgMusic.volume * (1/5) ∧
      (playAudio h opts false s).2.bgMusic.originalVolume = s.bgMusic.volume) ∧
    (opts.stopPrevious = true → ∀ p, s.previousAudioRef = some p → p ≠ h →
      ((playAudio h opts false s).2.elems p).paused = true ∧
      ((playAudio h opts false s).2.elems p).currentTime = 0) := by
  have hr : playAudio h opts false s =
      (false, setupPhase h opts (stopPrevPhase opts (prioPhase h opts s))) := by
    unfold playAudio
    simp [hadm]
  rw [hr]
  refine ⟨rfl, rfl, rfl, ?_, ?_, ?_, ?_⟩
  · intro ho
    rw [setupPhase_priorityAudioRef, stopPrevPhase_priorityAudioRef,
      prioPhase_priorityAudioRef, ho]
    simp
  · intro ho q hq hne
    have h1 : ((prioPhase h opts s).elems q).paused = true ∧
        ((prioPhase h opts s).elems q).currentTime = 0 := by
      rw [prioPhase_some h q opts s ho hq]
      refine ⟨?_, ?_⟩
      · rw [duckBackgroundMusic_paused]
        exact stopAudio_paused q s
      · rw [duckBackgroundMusic_currentTime]
        exact stopAudio_currentTime q s
    have h2 := stopPrevPhase_stopped_mono q opts (prioPhase h opts s) h1.1 h1.2
    have h3 := setupPhase_elems_ne h q opts (stopPrevPhase opts (prioPhase h opts s)) hne
    constructor
    · rw [h3, configureAudio_paused]
      exact h2.1
    · rw [h3, configureAudio_currentTime]
      exact h2.2
  · intro ho b hb hne hpl hdk
    have hduck : ∀ sb : St, sb.bgMusic = s.bgMusic →
        ((duckBackgroundMusic sb).elems b).volume = s.bgMusic.volume * (1/5) ∧
        (duckBackgroundMusic sb).bgMusic.originalVolume = s.bgMusic.volume := by
      intro sb hsb
      have := duckBackgroundMusic_applied b sb (by rw [hsb]; exact hb)
        (by rw [hsb]; exact hpl) (by rw [hsb]; exact hdk)
      rw [hsb] at this
      exact this
    have h1 : ((prioPhase h opts s).elems b).volume = s.bgMusic.volume * (1/5) ∧
        (prioPhase h opts s).bgMusic.originalVolume = s.bgMusic.volume := by
      cases hq : s.priorityAudioRef with
      | none =>
          rw [prioPhase_slot_empty h opts s ho hq]
          exact hduck _ rfl
      | some q =>
          rw [prioPhase_some h q opts s ho hq]
          exact hduck _ rfl
    constructor
    · have h3 := setupPhase_elems_ne h b opts (stopPrevPhase opts (prioPhase h opts s)) hne
      rw [h3, configureAudio_volume, stopPrevPhase_volume]
      exact h1.1
    · rw [setupPhase_bgMusic, stopPrevPhase_bgMusic]
      exact h1.2
  · intro hsp p hp hne
    have hprev : (prioPhase h opts s).previousAudioRef = some p := by
      rw [prioPhase_previousAudioRef]
      exact hp
    have h2 : ((stopPrevPhase opts (prioPhase h opts s)).elems p).paused = true ∧
        ((stopPrevPhase opts (prioPhase h opts s)).elems p).currentTime = 0 := by
      rw [stopPrevPhase_stop p opts (prioPhase h opts s) hsp hprev]
      exact ⟨stopAudio_paused p _, stopAudio_currentTime p _⟩
    have h3 := setupPhase_elems_ne h p opts (stopPrevPhase opts (prioPhase h opts s)) hne
    constructor
    · rw [h3, configureAudio_paused]
      exact h2.1
    · rw [h3, configureAudio_currentTime]
      exact h2.2

/-- Concrete pre-state for the C7 witness: previous slot 1, audible priority
element 2, background element 3 playing at volume 4/5 with ducking on. -/
def w7 : St :=
  { elems := fun n => if n = 2 then { paused := false, duration := 10 }
                      else { duration := 10 },
    previousAudioRef := some 1,
    priorityAudioRef := some 2,
    bgMusic := { audioRef := some 3, volume := 4/5, isPlaying := true,
                 originalVolume := 4/5, enableDucking := true } }

/-- C7 witness: a failing priority play of element 9 at w7 returns false and
leaves the slot takeover, the stop of element 2, the duck of element 3 and
the stop of element 1 in place. -/
theorem c7_failed_start_keeps_mutations_witness :
    (playAudio 9 { priority := true } false w7).1 = false ∧
    (playAudio 9 { priority := true } false w7).2.priorityAudioRef = some 9 ∧
    ((playAudio 9 { priority := true } false w7).2.elems 2).paused = true ∧
    ((playAudio 9 { priority := true } false w7).2.elems 3).volume = (4/5) * (1/5) ∧
    ((playAudio 9 { priority := true } false w7).2.elems 1).paused = true := by
  have hc := c7_failed_start_keeps_mutations 9 { priority := true } w7 (by decide)
  exact ⟨hc.1, hc.2.2.2.1 rfl, (hc.2.2.2.2.1 rfl 2 rfl (by decide)).1,
    (hc.2.2.2.2.2.1 rfl 3 rfl (by decide) rfl rfl).1,
    (hc.2.2.2.2.2.2 rfl 1 rfl (by decide)).1⟩


/-! Helper lemmas about optStop, the admitted playAudio path and the
background-music setters. -/

lemma stopAudio_stopped_mono (q n : Nat) (s : St)
    (hpa : (s.elems n).paused = true) (hct : (s.elems n).currentTime = 0) :
    ((stopAudio q s).elems n).paused = true ∧
    ((stopAudio q s).elems n).currentTime = 0 := by
  by_cases hn : n = q
  · subst hn
    exact ⟨stopAudio_paused n s, stopAudio_currentTime n s⟩
  · rw [stopAudio_elems_ne q n s hn]
    exact ⟨hpa, hct⟩

lemma optStop_stopped_mono (o : Option Nat) (n : Nat) (s : St)
    (hpa : (s.elems n).paused = true) (hct : (s.elems n).currentTime = 0) :
    ((optStop o s).elems n).paused = true ∧
    ((optStop o s).elems n).currentTime = 0 := by
  cases o with
  | none => exact ⟨hpa, hct⟩
  | some x => exact stopAudio_stopped_mono x n s hpa hct

lemma optStop_stops (n : Nat) (s : St) :
    ((optStop (some n) s).elems n).paused = true ∧
    ((optStop (some n) s).elems n).currentTime = 0 :=
  ⟨stopAudio_paused n s, stopAudio_currentTime n s⟩

lemma optStop_previousAudioRef (o : Option Nat) (s : St) :
    (optStop o s).previousAudioRef = s.previousAudioRef := by
  cases o <;> rfl

lemma optStop_priorityAudioRef (o : Option Nat) (s : St) :
    (optStop o s).priorityAudioRef = s.priorityAudioRef := by
  cases o <;> rfl

lemma optStop_bgMusic (o : Option Nat) (s : St) :
    (optStop o s).bgMusic = s.bgMusic := by
  cases o <;> rfl

lemma playAudio_admitted_elems_ne (h n : Nat) (opts : AudioControlOptions)
    (ok : Bool) (s : St)
    (hadm : (!opts.ignorePriority && hasPriorityAudio s && !opts.priority) = false)
    (hne : n ≠ h) :
    (playAudio h opts ok s).2.elems n =
      (configureAudio h opts (stopPrevPhase opts (prioPhase h opts s))).elems n := by
  cases ok <;> simp [playAudio, hadm, setupPhase, startPlay, hne]

lemma prioPhase_stops_old (h q : Nat) (o : AudioControlOptions) (s : St)
    (ho : o.priority = true) (hq : s.priorityAudioRef = some q) :
    ((prioPhase h o s).elems q).paused = true ∧
    ((prioPhase h o s).elems q).currentTime = 0 := by
  rw [prioPhase_some h q o s ho hq]
  refine ⟨?_, ?_⟩
  · rw [duckBackgroundMusic_paused]
    exact stopAudio_paused q s
  · rw [duckBackgroundMusic_currentTime]
    exact stopAudio_currentTime q s

lemma setBackgroundMusicVolume_orig (v : ℚ) (b : Nat) (s : St)
    (hb : s.bgMusic.audioRef = some b) :
    (setBackgroundMusicVolume v s).bgMusic.originalVolume = clamp01 v := by
  by_cases hc : hasPriorityAudio s && s.bgMusic.enableDucking <;>
    simp [setBackgroundMusicVolume, hb, hc]

lemma setBackgroundMusicDucking_flag (e : Bool) (b : Nat) (s : St)
    (hb : s.bgMusic.audioRef = some b) :
    (setBackgroundMusicDucking e s).bgMusic.enableDucking = e := by
  simp only [setBackgroundMusicDucking, hb]
  split
  · rfl
  · split
    · rfl
    · rfl

/-! Claim C8. -/

/-- C8: every internal stop both pauses the element and resets its position
to 0 — stopAudio itself, the superseding of the priority slot by a new
priority play, the stop of the previous slot by an admitted play with
stopPrevious, the stop of the tracked background element by
stopBackgroundMusic and by playBackgroundMusic, and the three stops of
cleanup — so a stopped sound restarts from the beginning. -/
theorem c8_internal_stops_reset_position (s : St) :
    (∀ q, ((stopAudio q s).elems q).paused = true ∧
      ((stopAudio q s).elems q).currentTime = 0) ∧
    (∀ h opts ok q, opts.priority = true → s.priorityAudioRef = some q → q ≠ h →
      ((playAudio h opts ok s).2.elems q).paused = true ∧
      ((playAudio h opts ok s).2.elems q).currentTime = 0) ∧
    (∀ h opts ok p,
      (!opts.ignorePriority && hasPriorityAudio s && !opts.priority) = false →
      opts.stopPrevious = true → s.previousAudioRef = some p → p ≠ h →
      ((playAudio h opts ok s).2.elems p).paused = true ∧
      ((playAudio h opts ok s).2.elems p).currentTime = 0) ∧
    (∀ b, s.bgMusic.audioRef = some b →
      ((stopBackgroundMusic s).elems b).paused = true ∧
      ((stopBackgroundMusic s).elems b).currentTime = 0) ∧
    (∀ h v e ok b, s.bgMusic.audioRef = some b → b ≠ h →
      ((playBackgroundMusic h v e ok s).elems b).paused = true ∧
      ((playBackgroundMusic h v e ok s).elems b).currentTime = 0) ∧
    (∀ n, s.previousAudioRef = some n ∨ s.priorityAudioRef = some n ∨
        s.bgMusic.audioRef = some n →
      ((cleanup s).elems n).paused = true ∧
      ((cleanup s).elems n).currentTime = 0) := by
  refine ⟨?_, ?_, ?_, ?_, ?_, ?_⟩
  · intro q
    exact ⟨stopAudio_paused q s, stopAudio_currentTime q s⟩
  · intro h opts ok q ho hq hne
    have hadm : (!opts.ignorePriority && hasPriorityAudio s && !opts.priority) = false := by
      simp [ho]
    have h1 := prioPhase_stops_old h q opts s ho hq
    have h2 := stopPrevPhase_stopped_mono q opts (prioPhase h opts s) h1.1 h1.2
    refine ⟨?_, ?_⟩
    · rw [playAudio_admitted_elems_ne h q opts ok s hadm hne, configureAudio_paused]
      exact h2.1
    · rw [playAudio_admitted_elems_ne h q opts ok s hadm hne, configureAudio_currentTime]
      exact h2.2
  · intro h opts ok p hadm hsp hp hne
    have hprev : (prioPhase h opts s).previousAudioRef = some p := by
      rw [prioPhase_previousAudioRef]
      exact hp
    have h2 : ((stopPrevPhase opts (prioPhase h opts s)).elems p).paused = true ∧
        ((stopPrevPhase opts (prioPhase h opts s)).elems p).currentTime = 0 := by
      rw [stopPrevPhase_stop p opts (prioPhase h opts s) hsp hprev]
      exact ⟨stopAudio_paused p _, stopAudio_currentTime p _⟩
    refine ⟨?_, ?_⟩
    · rw [playAudio_admitted_elems_ne h p opts ok s hadm hne, configureAudio_paused]
      exact h2.1
    · rw [playAudio_admitted_elems_ne h p opts ok s hadm hne, configureAudio_currentTime]
      exact h2.2
  · intro b hb
    simp [stopBackgroundMusic, hb, stopAudio]
  · intro h v e ok b hb hne
    cases ok <;>
      simp [playBackgroundMusic, optStop, setLoopTrue, setElemVolume, hb, startPlay,
        stopAudio, hne]
  · intro n hn
    have hfin : (cleanup s).elems =
        (optStop (optStop (optStop s.previousAudioRef s).priorityAudioRef
          (optStop s.previousAudioRef s)).bgMusic.audioRef
          (optStop (optStop s.previousAudioRef s).priorityAudioRef
            (optStop s.previousAudioRef s))).elems := rfl
    rcases hn with hp | hq | hb
    · have t1 := optStop_stops n s
      rw [← hp] at t1
      have t2 := optStop_stopped_mono
        ((optStop s.previousAudioRef s).priorityAudioRef) n _ t1.1 t1.2
      have t3 := optStop_stopped_mono
        ((optStop (optStop s.previousAudioRef s).priorityAudioRef
          (optStop s.previousAudioRef s)).bgMusic.audioRef) n _ t2.1 t2.2
      rw [hfin]
      exact t3
    · have e1 : (optStop s.previousAudioRef s).priorityAudioRef = some n := by
        rw [optStop_priorityAudioRef]
        exact hq
      have t1 := optStop_stops n (optStop s.previousAudioRef s)
      rw [← e1] at t1
      have t2 := optStop_stopped_mono
        ((optStop (optStop s.previousAudioRef s).priorityAudioRef
          (optStop s.previousAudioRef s)).bgMusic.audioRef) n _ t1.1 t1.2
      rw [hfin]
      exact t2
    · have e1 : (optStop (optStop s.previousAudioRef s).priorityAudioRef
          (optStop s.previousAudioRef s)).bgMusic.audioRef = some n := by
        rw [optStop_bgMusic, optStop_bgMusic]
        exact hb
      have t1 := optStop_stops n
        (optStop (optStop s.previousAudioRef s).priorityAudioRef
          (optStop s.previousAudioRef s))
      rw [← e1] at t1
      rw [hfin]
      exact t1

/-- C8 witness at w7: superseding priority play stops element 2, the
background element of w7 is stopped by stopBackgroundMusic, and cleanup
stops the previous element 1. -/
theorem c8_internal_stops_reset_position_witness :
    (((playAudio 9 { priority := true } true w7).2.elems 2).paused = true ∧
      ((playAudio 9 { priority := true } true w7).2.elems 2).currentTime = 0) ∧
    (((stopBackgroundMusic w7).elems 3).paused = true ∧
      ((stopBackgroundMusic w7).elems 3).currentTime = 0) ∧
    (((cleanup w7).elems 1).paused = true ∧
      ((cleanup w7).elems 1).currentTime = 0) := by
  have hc := c8_internal_stops_reset_position w7
  exact ⟨hc.2.1 9 { priority := true } true 2 rfl rfl (by decide),
    hc.2.2.2.1 3 rfl,
    hc.2.2.2.2.2 1 (Or.inl rfl)⟩

/-! Claim C9. -/

/-- C9: when playBackgroundMusic fails to start the new track, the old
tracked background element has already been stopped, yet the recorded
BackgroundMusicState is left unchanged, so getBackgroundMusicState still
reports the old volume, originalVolume and ducking flag, and still reports
isPlaying = true when it did before. -/
theorem c9_failed_bg_play_stale_state (h : Nat) (v : ℚ) (e : Bool) (s : St) :
    (playBackgroundMusic h v e false s).bgMusic = s.bgMusic ∧
    getBackgroundMusicState (playBackgroundMusic h v e false s) =
      getBackgroundMusicState s ∧
    (∀ b, s.bgMusic.audioRef = some b →
      ((playBackgroundMusic h v e false s).elems b).paused = true ∧
      ((playBackgroundMusic h v e false s).elems b).currentTime = 0) ∧
    (s.bgMusic.isPlaying = true →
      (getBackgroundMusicState (playBackgroundMusic h v e false s)).isPlaying = true) := by
  have hbg : (playBackgroundMusic h v e false s).bgMusic = s.bgMusic := by
    cases hb : s.bgMusic.audioRef <;>
      simp [playBackgroundMusic, optStop, setLoopTrue, setElemVolume, hb, stopAudio]
  refine ⟨hbg, ?_, ?_, ?_⟩
  · simp [getBackgroundMusicState, hbg]
  · intro b hb
    by_cases hbh : b = h
    · subst hbh
      simp [playBackgroundMusic, optStop, setLoopTrue, setElemVolume, hb, stopAudio]
    · simp [playBackgroundMusic, optStop, setLoopTrue, setElemVolume, hb, stopAudio, hbh]
  · intro hpl
    simp [getBackgroundMusicState, hbg, hpl]

/-- C9 witness at w7 (background element 3 tracked and playing): a failed
playBackgroundMusic of element 5 stops element 3 but keeps the old record. -/
theorem c9_failed_bg_play_stale_state_witness :
    (playBackgroundMusic 5 (1/2) true false w7).bgMusic = w7.bgMusic ∧
    ((playBackgroundMusic 5 (1/2) true false w7).elems 3).paused = true ∧
    (getBackgroundMusicState (playBackgroundMusic 5 (1/2) true false w7)).isPlaying = true := by
  have hc := c9_failed_bg_play_stale_state 5 (1/2) true w7
  exact ⟨hc.1, (hc.2.2.1 3 rfl).1, hc.2.2.2 rfl⟩

/-! Claim C10. -/

/-- C10: stopBackgroundMusic only clears the isPlaying field of the
BackgroundMusicState — the tracked handle, volume, originalVolume and
enableDucking fields are unchanged — and subsequent setBackgroundMusicVolume
and setBackgroundMusicDucking calls still operate on the stopped track. -/
theorem c10_stop_bg_only_isPlaying (b : Nat) (s : St)
    (hb : s.bgMusic.audioRef = some b) :
    (stopBackgroundMusic s).bgMusic.isPlaying = false ∧
    (stopBackgroundMusic s).bgMusic.audioRef = some b ∧
    (stopBackgroundMusic s).bgMusic.volume = s.bgMusic.volume ∧
    (stopBackgroundMusic s).bgMusic.originalVolume = s.bgMusic.originalVolume ∧
    (stopBackgroundMusic s).bgMusic.enableDucking = s.bgMusic.enableDucking ∧
    (∀ v, (setBackgroundMusicVolume v (stopBackgroundMusic s)).bgMusic.originalVolume
      = clamp01 v) ∧
    (∀ e, (setBackgroundMusicDucking e (stopBackgroundMusic s)).bgMusic.enableDucking
      = e) := by
  have h1 : (stopBackgroundMusic s).bgMusic = { s.bgMusic with isPlaying := false } := by
    simp [stopBackgroundMusic, hb, stopAudio]
  have h2 : (stopBackgroundMusic s).bgMusic.audioRef = some b := by
    rw [h1]
    exact hb
  refine ⟨by rw [h1], h2, by rw [h1], by rw [h1], by rw [h1], ?_, ?_⟩
  · intro v
    exact setBackgroundMusicVolume_orig v b (stopBackgroundMusic s) h2
  · intro e
    exact setBackgroundMusicDucking_flag e b (stopBackgroundMusic s) h2

/-- C10 witness at w7. -/
theorem c10_stop_bg_only_isPlaying_witness :
    (stopBackgroundMusic w7).bgMusic.isPlaying = false ∧
    (stopBackgroundMusic w7).bgMusic.audioRef = some 3 ∧
    (stopBackgroundMusic w7).bgMusic.volume = 4/5 ∧
    (setBackgroundMusicVolume (1/2) (stopBackgroundMusic w7)).bgMusic.originalVolume
      = clamp01 (1/2) ∧
    (setBackgroundMusicDucking false (stopBackgroundMusic w7)).bgMusic.enableDucking
      = false := by
  have hc := c10_stop_bg_only_isPlaying 3 w7 rfl
  exact ⟨hc.1, hc.2.1, hc.2.2.1, hc.2.2.2.2.2.1 (1/2), hc.2.2.2.2.2.2 false⟩


/-! Further preservation lemmas (configureAudio, afterEndEvent, logCallback,
playAudio) used by the completion and cleanup claims. -/

lemma configureAudio_priorityQueue (q : Nat) (o : AudioControlOptions) (s : St) :
    (configureAudio q o s).priorityQueue = s.priorityQueue := by
  unfold configureAudio
  cases o.playbackRate with
  | none => rfl
  | some r => by_cases hr : r ≠ 0 <;> simp [hr]

lemma configureAudio_onEndLog (q : Nat) (o : AudioControlOptions) (s : St) :
    (configureAudio q o s).onEndLog = s.onEndLog := by
  unfold configureAudio
  cases o.playbackRate with
  | none => rfl
  | some r => by_cases hr : r ≠ 0 <;> simp [hr]

lemma duckBackgroundMusic_onEndLog (s : St) :
    (duckBackgroundMusic s).onEndLog = s.onEndLog := by
  unfold duckBackgroundMusic
  cases s.bgMusic.audioRef with
  | none => rfl
  | some b => by_cases hc : s.bgMusic.isPlaying && s.bgMusic.enableDucking <;> simp [hc]

lemma prioPhase_onEndLog (h : Nat) (o : AudioControlOptions) (s : St) :
    (prioPhase h o s).onEndLog = s.onEndLog := by
  unfold prioPhase
  by_cases ho : o.priority
  · cases hq : s.priorityAudioRef <;>
      simp [ho, hq, duckBackgroundMusic_onEndLog, stopAudio_onEndLog]
  · simp [ho]

lemma stopPrevPhase_onEndLog (o : AudioControlOptions) (s : St) :
    (stopPrevPhase o s).onEndLog = s.onEndLog := by
  unfold stopPrevPhase
  by_cases ho : o.stopPrevious
  · cases hp : s.previousAudioRef <;> simp [ho, hp, stopAudio_onEndLog]
  · simp [ho]

lemma setupPhase_priorityQueue (h : Nat) (o : AudioControlOptions) (s : St) :
    (setupPhase h o s).priorityQueue = s.priorityQueue := by
  simp [setupPhase, configureAudio_priorityQueue]

lemma setupPhase_onEndLog (h : Nat) (o : AudioControlOptions) (s : St) :
    (setupPhase h o s).onEndLog = s.onEndLog := by
  simp [setupPhase, configureAudio_onEndLog]

lemma playAudio_onEndLog (h : Nat) (opts : AudioControlOptions) (ok : Bool)
    (s : St) : (playAudio h opts ok s).2.onEndLog = s.onEndLog := by
  unfold playAudio
  by_cases hg : !opts.ignorePriority && hasPriorityAudio s && !opts.priority
  · by_cases hqb : opts.queueIfBlocked <;> simp [hg, hqb]
  · cases ok <;>
      simp [hg, startPlay, setupPhase_onEndLog, stopPrevPhase_onEndLog, prioPhase_onEndLog]

lemma playAudio_admitted_priorityQueue (h : Nat) (opts : AudioControlOptions)
    (ok : Bool) (s : St)
    (hadm : (!opts.ignorePriority && hasPriorityAudio s && !opts.priority) = false) :
    (playAudio h opts ok s).2.priorityQueue = s.priorityQueue := by
  unfold playAudio
  cases ok <;>
    simp [hadm, startPlay, setupPhase_priorityQueue, stopPrevPhase_priorityQueue,
      prioPhase_priorityQueue]

lemma playAudio_admitted_previousAudioRef (h : Nat) (opts : AudioControlOptions)
    (ok : Bool) (s : St)
    (hadm : (!opts.ignorePriority && hasPriorityAudio s && !opts.priority) = false) :
    (playAudio h opts ok s).2.previousAudioRef = some h := by
  unfold playAudio
  cases ok <;> simp [hadm, startPlay, setupPhase]

lemma playAudio_nonpriority_priorityAudioRef (h : Nat) (opts : AudioControlOptions)
    (ok : Bool) (s : St)
    (hadm : (!opts.ignorePriority && hasPriorityAudio s && !opts.priority) = false)
    (ho : opts.priority = false) :
    (playAudio h opts ok s).2.priorityAudioRef = s.priorityAudioRef := by
  have hfix := prioPhase_not h opts s ho
  unfold playAudio
  cases ok <;>
    simp [hadm, startPlay, setupPhase_priorityAudioRef, stopPrevPhase_priorityAudioRef, hfix]

lemma playAudio_success_started (h : Nat) (opts : AudioControlOptions) (s : St)
    (hadm : (!opts.ignorePriority && hasPriorityAudio s && !opts.priority) = false) :
    ((playAudio h opts true s).2.elems h).paused = false := by
  simp [playAudio, hadm, startPlay]

lemma afterEndEvent_previousAudioRef (h : Nat) (s : St) :
    (afterEndEvent h s).previousAudioRef = s.previousAudioRef := rfl

lemma afterEndEvent_priorityQueue (h : Nat) (s : St) :
    (afterEndEvent h s).priorityQueue = s.priorityQueue := rfl

lemma afterEndEvent_bgMusic (h : Nat) (s : St) :
    (afterEndEvent h s).bgMusic = s.bgMusic := rfl

lemma afterEndEvent_onEndLog (h : Nat) (s : St) :
    (afterEndEvent h s).onEndLog = s.onEndLog := rfl

lemma afterEndEvent_volume (h n : Nat) (s : St) :
    ((afterEndEvent h s).elems n).volume = (s.elems n).volume := by
  by_cases hn : n = h <;> simp [afterEndEvent, hn]

lemma logCallback_some (ctx : Handler) (c : Nat) (s : St) (hc : ctx.onEnd = some c) :
    logCallback ctx s = { s with onEndLog := s.onEndLog ++ [c] } := by
  simp [logCallback, hc]

lemma logCallback_none (ctx : Handler) (s : St) (hc : ctx.onEnd = none) :
    logCallback ctx s = s := by
  simp [logCallback, hc]

lemma logCallback_priorityQueue (ctx : Handler) (s : St) :
    (logCallback ctx s).priorityQueue = s.priorityQueue := by
  unfold logCallback
  cases ctx.onEnd <;> rfl

lemma logCallback_bgMusic (ctx : Handler) (s : St) :
    (logCallback ctx s).bgMusic = s.bgMusic := by
  unfold logCallback
  cases ctx.onEnd <;> rfl

lemma logCallback_elems (ctx : Handler) (s : St) :
    (logCallback ctx s).elems = s.elems := by
  unfold logCallback
  cases ctx.onEnd <;> rfl

lemma logCallback_onEndLog_some (ctx : Handler) (c : Nat) (s : St)
    (hc : ctx.onEnd = some c) :
    (logCallback ctx s).onEndLog = s.onEndLog ++ [c] := by
  simp [logCallback, hc]

lemma cleanup_stops_tracked (s : St) :
    ∀ n, s.previousAudioRef = some n ∨ s.priorityAudioRef = some n ∨
        s.bgMusic.audioRef = some n →
      ((cleanup s).elems n).paused = true ∧
      ((cleanup s).elems n).currentTime = 0 := by
  intro n hn
  have hfin : (cleanup s).elems =
      (optStop (optStop (optStop s.previousAudioRef s).priorityAudioRef
        (optStop s.previousAudioRef s)).bgMusic.audioRef
        (optStop (optStop s.previousAudioRef s).priorityAudioRef
          (optStop s.previousAudioRef s))).elems := rfl
  rcases hn with hp | hq | hb
  · have t1 := optStop_stops n s
    rw [← hp] at t1
    have t2 := optStop_stopped_mono
      ((optStop s.previousAudioRef s).priorityAudioRef) n _ t1.1 t1.2
    have t3 := optStop_stopped_mono
      ((optStop (optStop s.previousAudioRef s).priorityAudioRef
        (optStop s.previousAudioRef s)).bgMusic.audioRef) n _ t2.1 t2.2
    rw [hfin]
    exact t3
  · have e1 : (optStop s.previousAudioRef s).priorityAudioRef = some n := by
      rw [optStop_priorityAudioRef]
      exact hq
    have t1 := optStop_stops n (optStop s.previousAudioRef s)
    rw [← e1] at t1
    have t2 := optStop_stopped_mono
      ((optStop (optStop s.previousAudioRef s).priorityAudioRef
        (optStop s.previousAudioRef s)).bgMusic.audioRef) n _ t1.1 t1.2
    rw [hfin]
    exact t2
  · have e1 : (optStop (optStop s.previousAudioRef s).priorityAudioRef
        (optStop s.previousAudioRef s)).bgMusic.audioRef = some n := by
      rw [optStop_bgMusic, optStop_bgMusic]
      exact hb
    have t1 := optStop_stops n
      (optStop (optStop s.previousAudioRef s).priorityAudioRef
        (optStop s.previousAudioRef s))
    rw [← e1] at t1
    rw [hfin]
    exact t1

/-! Claim C6 (corrected). -/

/-- Chain reaching a state whose priority queue holds element 2 while
element 2 is audibly playing and tracked by no slot: a priority play of 1,
a blocked queued request for 2, a direct ignorePriority play of 2, then a
direct ignorePriority play of 3 that displaces 2 from the previous slot. -/
def y1 : St := (playAudio 1 { priority := true } true st0).2

/-- Second step of the C6 chain. -/
def y2 : St := (playAudio 2 { queueIfBlocked := true } true y1).2

/-- Third step of the C6 chain. -/
def y3 : St := (playAudio 2 { ignorePriority := true, stopPrevious := false } true y2).2

/-- Fourth step of the C6 chain. -/
def y4 : St := (playAudio 3 { ignorePriority := true, stopPrevious := false } true y3).2

/-- C6 counterexample: at y4 the queue holds element 2 and element 2 is
audibly playing, yet cleanup leaves element 2 playing — the source only
detaches listeners from queued entries and never stops them, so cleanup
does not stop every tracked handle. -/
theorem c6_queued_entry_not_stopped :
    y4.priorityQueue = [(2, { queueIfBlocked := true })] ∧
    (y4.elems 2).paused = false ∧
    ((cleanup y4).elems 2).paused = false := by
  decide

/-- C6 amended: cleanup stops the handles of the previous, priority and
background slots, empties the priority queue, resets every controller field
to its initial empty value so every query reports the initial state, and is
idempotent; queued entries however are only detached from their listeners,
not stopped. -/
theorem c6_cleanup_reset (s : St) :
    (∀ n, s.previousAudioRef = some n ∨ s.priorityAudioRef = some n ∨
        s.bgMusic.audioRef = some n →
      ((cleanup s).elems n).paused = true ∧
      ((cleanup s).elems n).currentTime = 0) ∧
    (cleanup s).previousAudioRef = none ∧
    (cleanup s).priorityAudioRef = none ∧
    (cleanup s).priorityQueue = [] ∧
    (cleanup s).bgMusic = {} ∧
    getAudioMetadata (cleanup s) = {} ∧
    getBackgroundMusicState (cleanup s) =
      { isPlaying := false, volume := 1, originalVolume := 1, enableDucking := true } ∧
    hasPriorityAudio (cleanup s) = false ∧
    cleanup (cleanup s) = cleanup s := by
  exact ⟨cleanup_stops_tracked s, rfl, rfl, rfl, rfl, rfl, rfl, rfl, rfl⟩

/-- C6 witness at w7: cleanup stops the previous element 1, empties the
queue, reports the initial background view, and a second cleanup changes
nothing. -/
theorem c6_cleanup_reset_witness :
    (((cleanup w7).elems 1).paused = true ∧
      ((cleanup w7).elems 1).currentTime = 0) ∧
    (cleanup w7).priorityQueue = [] ∧
    getBackgroundMusicState (cleanup w7) =
      { isPlaying := false, volume := 1, originalVolume := 1, enableDucking := true } ∧
    cleanup (cleanup w7) = cleanup w7 := by
  have hc := c6_cleanup_reset w7
  exact ⟨hc.1 1 (Or.inl rfl), hc.2.2.2.1, hc.2.2.2.2.2.2.1, hc.2.2.2.2.2.2.2.2⟩


/-! Claim C3 (corrected). -/

/-- C3 counterexample chain, first step: background element 1 starts playing
at volume 1/2 with ducking enabled. -/
def cx1 : St := playBackgroundMusic 1 (1/2) true true st0

/-- C3 counterexample chain, second step: a priority play of element 2 ducks
the background element to 1/10. -/
def cx2 : St := (playAudio 2 { priority := true } true cx1).2

/-- C3 counterexample chain, third step: stopBackgroundMusic clears the
isPlaying flag while the background element stays at the ducked volume. -/
def cx3 : St := stopBackgroundMusic cx2

/-- C3 counterexample: at cx3 ducking is still enabled, originalVolume is
recorded as 1/2 and element 2 still occupies the priority slot, yet the
completion event of the priority playback leaves the background element at
the ducked 1/10 instead of restoring 1/2 — the source's restore additionally
requires the isPlaying flag, which stopBackgroundMusic has cleared. -/
theorem c3_restore_skipped_when_not_playing :
    cx3.bgMusic.enableDucking = true ∧
    cx3.bgMusic.originalVolume = 1/2 ∧
    cx3.priorityAudioRef = some 2 ∧
    ((fireEnded 2 true cx3).elems 1).volume = 1/10 ∧
    ((1 : ℚ)/10 ≠ 1/2) := by
  refine ⟨rfl, ?_, rfl, ?_, by norm_num⟩
  · show clamp01 (1/2) = 1/2
    norm_num [clamp01]
  · show cx1.bgMusic.volume * (1/5) = 1/10
    show clamp01 (1/2) * (1/5) = 1/10
    norm_num [clamp01]

/-- C3 amended: when the completion event of a priority playback fires, the
captured completion callback runs, the priority slot is cleared, the
background volume is restored to the recorded originalVolume provided the
background track is present, marked playing AND ducking is still enabled
(not on ducking alone), and exactly the front queue entry is removed and
played with ignorePriority forced true — one entry per completion. -/
theorem c3_completion_fifo (h : Nat) (ctx : Handler) (ok : Bool) (s : St)
    (hh : s.handlers h = some ctx) (hp : ctx.priority = true) :
    (∀ c, ctx.onEnd = some c →
      (fireEnded h ok s).onEndLog = s.onEndLog ++ [c]) ∧
    (s.priorityQueue = [] →
      (fireEnded h ok s).priorityAudioRef = none ∧
      (fireEnded h ok s).priorityQueue = []) ∧
    (∀ b, s.priorityQueue = [] → s.bgMusic.audioRef = some b →
      s.bgMusic.isPlaying = true → s.bgMusic.enableDucking = true →
      ((fireEnded h ok s).elems b).volume = s.bgMusic.originalVolume) ∧
    (∀ a o rest, s.priorityQueue = (a, o) :: rest →
      (fireEnded h ok s).priorityQueue = rest) ∧
    (∀ a o rest, s.priorityQueue = (a, o) :: rest → o.priority = false →
      (fireEnded h ok s).previousAudioRef = some a ∧
      (fireEnded h ok s).priorityAudioRef = none ∧
      (ok = true → ((fireEnded h ok s).elems a).paused = false)) := by
  have hq1 : (restoreBackgroundMusic
      { logCallback ctx (afterEndEvent h s) with priorityAudioRef := none }).priorityQueue
      = s.priorityQueue := by
    rw [restoreBackgroundMusic_priorityQueue]
    show (logCallback ctx (afterEndEvent h s)).priorityQueue = s.priorityQueue
    rw [logCallback_priorityQueue]
    rfl
  have hbg0 : ({ logCallback ctx (afterEndEvent h s) with
      priorityAudioRef := none } : St).bgMusic = s.bgMusic := by
    show (logCallback ctx (afterEndEvent h s)).bgMusic = s.bgMusic
    rw [logCallback_bgMusic]
    rfl
  have hlog1 : ∀ c, ctx.onEnd = some c →
      (restoreBackgroundMusic
        { logCallback ctx (afterEndEvent h s) with
          priorityAudioRef := none }).onEndLog = s.onEndLog ++ [c] := by
    intro c hc
    rw [restoreBackgroundMusic_onEndLog]
    show (logCallback ctx (afterEndEvent h s)).onEndLog = s.onEndLog ++ [c]
    rw [logCallback_onEndLog_some ctx c _ hc]
    rfl
  have hprio1 : (restoreBackgroundMusic
      { logCallback ctx (afterEndEvent h s) with
        priorityAudioRef := none }).priorityAudioRef = none := by
    rw [restoreBackgroundMusic_priorityAudioRef]
  have hnil : s.priorityQueue = [] → fireEnded h ok s =
      restoreBackgroundMusic
        { logCallback ctx (afterEndEvent h s) with priorityAudioRef := none } := by
    intro hq
    rw [hq] at hq1
    simp only [fireEnded, hh, enhancedOnEnd, hp, if_true, hq1]
  have hcons : ∀ a o rest, s.priorityQueue = (a, o) :: rest → fireEnded h ok s =
      (playAudio a { o with ignorePriority := true } ok
        { restoreBackgroundMusic
            { logCallback ctx (afterEndEvent h s) with priorityAudioRef := none } with
          priorityQueue := rest }).2 := by
    intro a o rest hq
    rw [hq] at hq1
    simp only [fireEnded, hh, enhancedOnEnd, hp, if_true, hq1]
  have hadm : ∀ (o : AudioControlOptions) (x : St),
      (!({ o with ignorePriority := true } : AudioControlOptions).ignorePriority &&
        hasPriorityAudio x &&
        !({ o with ignorePriority := true } : AudioControlOptions).priority) = false := by
    intro o x
    simp
  refine ⟨?_, ?_, ?_, ?_, ?_⟩
  · intro c hc
    cases hq : s.priorityQueue with
    | nil =>
        rw [hnil hq]
        exact hlog1 c hc
    | cons front rest =>
        rw [hcons front.1 front.2 rest (by rw [hq])]
        rw [playAudio_onEndLog]
        show (restoreBackgroundMusic _).onEndLog = s.onEndLog ++ [c]
        exact hlog1 c hc
  · intro hq
    rw [hnil hq]
    exact ⟨hprio1, by rw [hq] at hq1; exact hq1⟩
  · intro b hq hb hpl hdk
    rw [hnil hq]
    have hres := restoreBackgroundMusic_applied b
      { logCallback ctx (afterEndEvent h s) with priorityAudioRef := none }
      (by rw [hbg0]; exact hb) (by rw [hbg0]; exact hpl) (by rw [hbg0]; exact hdk)
    rw [hres, hbg0]
  · intro a o rest hq
    rw [hcons a o rest hq]
    rw [playAudio_admitted_priorityQueue a _ ok _ (hadm o _)]
  · intro a o rest hq ho
    have ho' : ({ o with ignorePriority := true } : AudioControlOptions).priority = false := ho
    refine ⟨?_, ?_, ?_⟩
    · rw [hcons a o rest hq]
      exact playAudio_admitted_previousAudioRef a _ ok _ (hadm o _)
    · rw [hcons a o rest hq]
      rw [playAudio_nonpriority_priorityAudioRef a _ ok _ (hadm o _) ho']
      exact hprio1
    · intro hok
      subst hok
      rw [hcons a o rest hq]
      exact playAudio_success_started a _ _ (hadm o _)

/-- C3 witness chain: background 1 at 1/2 with ducking, a priority play of
element 2 carrying completion callback 7, then a blocked queued request for
element 3. -/
def z1 : St := playBackgroundMusic 1 (1/2) true true st0

/-- C3 witness chain, second step. -/
def z2 : St := (playAudio 2 { priority := true, onEnd := some 7 } true z1).2

/-- C3 witness chain, third step. -/
def z3 : St := (playAudio 3 { queueIfBlocked := true, stopPrevious := false } true z2).2

/-- C3 witness: delivering the completion event of element 2 at z3 runs
callback 7, pops exactly the queued request for element 3 and starts it. -/
theorem c3_completion_fifo_witness :
    (fireEnded 2 true z3).onEndLog = z3.onEndLog ++ [7] ∧
    (fireEnded 2 true z3).priorityQueue = [] ∧
    (fireEnded 2 true z3).previousAudioRef = some 3 ∧
    (fireEnded 2 true z3).priorityAudioRef = none ∧
    ((fireEnded 2 true z3).elems 3).paused = false := by
  have hc := c3_completion_fifo 2 { onEnd := some 7, priority := true } true z3
    (by decide) rfl
  have hq : z3.priorityQueue =
      (3, { queueIfBlocked := true, stopPrevious := false }) :: [] := by decide
  have h5 := hc.2.2.2.2 3 { queueIfBlocked := true, stopPrevious := false } [] hq rfl
  exact ⟨hc.1 7 rfl, hc.2.2.2.1 3 _ [] hq, h5.1, h5.2.1, h5.2.2 rfl⟩


/-! Lemmas supporting the ducking-invariant claim. -/

lemma hasPriorityAudio_congr (t s : St)
    (h1 : t.priorityAudioRef = s.priorityAudioRef)
    (h2 : ∀ q, s.priorityAudioRef = some q →
      (t.elems q).paused = (s.elems q).paused ∧
      (t.elems q).currentTime = (s.elems q).currentTime ∧
      (t.elems q).duration = (s.elems q).duration) :
    hasPriorityAudio t = hasPriorityAudio s := by
  unfold hasPriorityAudio
  rw [h1]
  cases hq : s.priorityAudioRef with
  | none => rfl
  | some q =>
      obtain ⟨ha, hb, hc⟩ := h2 q hq
      show (!(t.elems q).paused && decide ((t.elems q).currentTime < (t.elems q).duration)) =
        (!(s.elems q).paused && decide ((s.elems q).currentTime < (s.elems q).duration))
      rw [ha, hb, hc]

lemma hasPriorityAudio_of_none (s : St) (h : s.priorityAudioRef = none) :
    hasPriorityAudio s = false := by
  unfold hasPriorityAudio
  rw [h]

lemma bgInvB_eq_true_iff (s : St) : bgInvB s = true ↔
    (∀ b, s.bgMusic.audioRef = some b → s.bgMusic.isPlaying = true →
      (s.elems b).volume = dueVolume s) := by
  unfold bgInvB
  cases hb : s.bgMusic.audioRef with
  | none => simp [hb]
  | some b =>
      cases hpl : s.bgMusic.isPlaying <;> simp [hb, hpl]

lemma setLoopTrue_paused (h n : Nat) (s : St) :
    ((setLoopTrue h s).elems n).paused = (s.elems n).paused := by
  by_cases hn : n = h <;> simp [setLoopTrue, hn]

lemma setLoopTrue_currentTime (h n : Nat) (s : St) :
    ((setLoopTrue h s).elems n).currentTime = (s.elems n).currentTime := by
  by_cases hn : n = h <;> simp [setLoopTrue, hn]

lemma setLoopTrue_duration (h n : Nat) (s : St) :
    ((setLoopTrue h s).elems n).duration = (s.elems n).duration := by
  by_cases hn : n = h <;> simp [setLoopTrue, hn]

lemma setLoopTrue_volume (h n : Nat) (s : St) :
    ((setLoopTrue h s).elems n).volume = (s.elems n).volume := by
  by_cases hn : n = h <;> simp [setLoopTrue, hn]

lemma setLoopTrue_priorityAudioRef (h : Nat) (s : St) :
    (setLoopTrue h s).priorityAudioRef = s.priorityAudioRef := rfl

lemma setLoopTrue_bgMusic (h : Nat) (s : St) :
    (setLoopTrue h s).bgMusic = s.bgMusic := rfl

lemma setElemVolume_paused (h : Nat) (v : ℚ) (n : Nat) (s : St) :
    ((setElemVolume h v s).elems n).paused = (s.elems n).paused := by
  by_cases hn : n = h <;> simp [setElemVolume, hn]

lemma setElemVolume_currentTime (h : Nat) (v : ℚ) (n : Nat) (s : St) :
    ((setElemVolume h v s).elems n).currentTime = (s.elems n).currentTime := by
  by_cases hn : n = h <;> simp [setElemVolume, hn]

lemma setElemVolume_duration (h : Nat) (v : ℚ) (n : Nat) (s : St) :
    ((setElemVolume h v s).elems n).duration = (s.elems n).duration := by
  by_cases hn : n = h <;> simp [setElemVolume, hn]

lemma setElemVolume_volume_self (h : Nat) (v : ℚ) (s : St) :
    ((setElemVolume h v s).elems h).volume = v := by
  simp [setElemVolume]

lemma setElemVolume_volume_ne (h : Nat) (v : ℚ) (n : Nat) (s : St) (hn : n ≠ h) :
    ((setElemVolume h v s).elems n).volume = (s.elems n).volume := by
  simp [setElemVolume, hn]

lemma setElemVolume_priorityAudioRef (h : Nat) (v : ℚ) (s : St) :
    (setElemVolume h v s).priorityAudioRef = s.priorityAudioRef := rfl

lemma stopAudio_paused_mono (q n : Nat) (s : St)
    (hpa : (s.elems n).paused = true) :
    ((stopAudio q s).elems n).paused = true := by
  by_cases hn : n = q
  · subst hn
    exact stopAudio_paused n s
  · rw [stopAudio_elems_ne q n s hn]
    exact hpa

lemma optStop_paused (o : Option Nat) (n : Nat) (s : St)
    (hpa : (s.elems n).paused = true) :
    ((optStop o s).elems n).paused = true := by
  cases o with
  | none => exact hpa
  | some x => exact stopAudio_paused_mono x n s hpa

lemma optStop_volume (o : Option Nat) (n : Nat) (s : St) :
    ((optStop o s).elems n).volume = (s.elems n).volume := by
  cases o with
  | none => rfl
  | some x => exact stopAudio_volume x n s

lemma optStop_duration (o : Option Nat) (n : Nat) (s : St) :
    ((optStop o s).elems n).duration = (s.elems n).duration := by
  cases o with
  | none => rfl
  | some x => exact stopAudio_duration x n s

lemma startPlay_paused_self (h : Nat) (s : St) :
    ((startPlay h s).elems h).paused = false := by
  simp [startPlay]

lemma startPlay_paused_ne (h n : Nat) (s : St) (hn : n ≠ h) :
    ((startPlay h s).elems n).paused = (s.elems n).paused := by
  simp [startPlay, hn]

lemma startPlay_currentTime (h n : Nat) (s : St) :
    ((startPlay h s).elems n).currentTime = (s.elems n).currentTime := by
  by_cases hn : n = h <;> simp [startPlay, hn]

lemma startPlay_duration (h n : Nat) (s : St) :
    ((startPlay h s).elems n).duration = (s.elems n).duration := by
  by_cases hn : n = h <;> simp [startPlay, hn]

lemma stopAudio_ct0_mono (q n : Nat) (s : St)
    (hct : (s.elems n).currentTime = 0) :
    ((stopAudio q s).elems n).currentTime = 0 := by
  by_cases hn : n = q
  · subst hn
    exact stopAudio_currentTime n s
  · rw [stopAudio_elems_ne q n s hn]
    exact hct

lemma prioPhase_duration (h n : Nat) (o : AudioControlOptions) (s : St) :
    ((prioPhase h o s).elems n).duration = (s.elems n).duration := by
  unfold prioPhase
  by_cases ho : o.priority
  · cases hq : s.priorityAudioRef <;>
      simp [ho, hq, duckBackgroundMusic_duration, stopAudio_duration]
  · simp [ho]

lemma prioPhase_ct0 (h n : Nat) (o : AudioControlOptions) (s : St)
    (hct : (s.elems n).currentTime = 0) :
    ((prioPhase h o s).elems n).currentTime = 0 := by
  unfold prioPhase
  by_cases ho : o.priority
  · cases hq : s.priorityAudioRef with
    | none => simp [ho, hq, duckBackgroundMusic_currentTime, hct]
    | some q =>
        have := stopAudio_ct0_mono q n s hct
        simp [ho, hq, duckBackgroundMusic_currentTime]
        exact this
  · simp [ho, hct]

lemma stopPrevPhase_ct0 (n : Nat) (o : AudioControlOptions) (s : St)
    (hct : (s.elems n).currentTime = 0) :
    ((stopPrevPhase o s).elems n).currentTime = 0 := by
  unfold stopPrevPhase
  by_cases ho : o.stopPrevious
  · cases hp : s.previousAudioRef with
    | none => simp [ho, hp, hct]
    | some p =>
        have := stopAudio_ct0_mono p n s hct
        simp [ho, hp]
        exact this
  · simp [ho, hct]

lemma playAudio_priority_slot (h : Nat) (opts : AudioControlOptions) (ok : Bool)
    (s : St) (ho : opts.priority = true) :
    (playAudio h opts ok s).2.priorityAudioRef = some h := by
  have hadm : (!opts.ignorePriority && hasPriorityAudio s && !opts.priority) = false := by
    simp [ho]
  have hfix : (prioPhase h opts s).priorityAudioRef = some h := by
    rw [prioPhase_priorityAudioRef, ho]
    simp
  unfold playAudio
  cases ok <;>
    simp [hadm, startPlay, setupPhase_priorityAudioRef, stopPrevPhase_priorityAudioRef, hfix]

lemma playAudio_admitted_bgMusic (h : Nat) (opts : AudioControlOptions) (ok : Bool)
    (s : St)
    (hadm : (!opts.ignorePriority && hasPriorityAudio s && !opts.priority) = false) :
    (playAudio h opts ok s).2.bgMusic = (prioPhase h opts s).bgMusic := by
  unfold playAudio
  cases ok <;> simp [hadm, startPlay, setupPhase_bgMusic, stopPrevPhase_bgMusic]

lemma playAudio_nonpriority_volume (h n : Nat) (opts : AudioControlOptions)
    (ok : Bool) (s : St)
    (hadm : (!opts.ignorePriority && hasPriorityAudio s && !opts.priority) = false)
    (ho : opts.priority = false) (hne : n ≠ h) :
    ((playAudio h opts ok s).2.elems n).volume = (s.elems n).volume := by
  rw [playAudio_admitted_elems_ne h n opts ok s hadm hne, configureAudio_volume,
    stopPrevPhase_volume, prioPhase_not h opts s ho]

lemma playAudio_success_ct0 (h : Nat) (opts : AudioControlOptions) (s : St)
    (hadm : (!opts.ignorePriority && hasPriorityAudio s && !opts.priority) = false)
    (hct : (s.elems h).currentTime = 0) :
    ((playAudio h opts true s).2.elems h).currentTime = 0 := by
  have h1 := prioPhase_ct0 h h opts s hct
  have h2 := stopPrevPhase_ct0 h opts (prioPhase h opts s) h1
  unfold playAudio
  simp [hadm, startPlay, setupPhase_currentTime_self, h2]

lemma playAudio_duration_self (h : Nat) (opts : AudioControlOptions) (ok : Bool)
    (s : St)
    (hadm : (!opts.ignorePriority && hasPriorityAudio s && !opts.priority) = false) :
    ((playAudio h opts ok s).2.elems h).duration = (s.elems h).duration := by
  unfold playAudio
  cases ok <;>
    simp [hadm, startPlay, setupPhase_duration_self, stopPrevPhase_duration,
      prioPhase_duration]

lemma playAudio_success_hasP (h : Nat) (opts : AudioControlOptions) (s : St)
    (ho : opts.priority = true) (hct : (s.elems h).currentTime = 0)
    (hdur : 0 < (s.elems h).duration) :
    hasPriorityAudio (playAudio h opts true s).2 = true := by
  have hadm : (!opts.ignorePriority && hasPriorityAudio s && !opts.priority) = false := by
    simp [ho]
  have hslot := playAudio_priority_slot h opts true s ho
  have hpaused := playAudio_success_started h opts s hadm
  have hct' := playAudio_success_ct0 h opts s hadm hct
  have hdur' := playAudio_duration_self h opts true s hadm
  unfold hasPriorityAudio
  rw [hslot]
  show (!((playAudio h opts true s).2.elems h).paused &&
      decide (((playAudio h opts true s).2.elems h).currentTime <
        ((playAudio h opts true s).2.elems h).duration)) = true
  rw [hpaused, hct', hdur']
  simp [hdur]

lemma fireEnded_nil (h : Nat) (ctx : Handler) (ok : Bool) (s : St)
    (hh : s.handlers h = some ctx) (hp : ctx.priority = true)
    (hq : s.priorityQueue = []) :
    fireEnded h ok s = restoreBackgroundMusic
      { logCallback ctx (afterEndEvent h s) with priorityAudioRef := none } := by
  have hq1 : (restoreBackgroundMusic
      { logCallback ctx (afterEndEvent h s) with priorityAudioRef := none }).priorityQueue
      = s.priorityQueue := by
    rw [restoreBackgroundMusic_priorityQueue]
    show (logCallback ctx (afterEndEvent h s)).priorityQueue = s.priorityQueue
    rw [logCallback_priorityQueue]
    rfl
  rw [hq] at hq1
  simp only [fireEnded, hh, enhancedOnEnd, hp, if_true, hq1]

lemma fireEnded_cons (h : Nat) (ctx : Handler) (ok : Bool) (s : St)
    (a : Nat) (o : AudioControlOptions) (rest : List (Nat × AudioControlOptions))
    (hh : s.handlers h = some ctx) (hp : ctx.priority = true)
    (hq : s.priorityQueue = (a, o) :: rest) :
    fireEnded h ok s = (playAudio a { o with ignorePriority := true } ok
      { restoreBackgroundMusic
          { logCallback ctx (afterEndEvent h s) with priorityAudioRef := none } with
        priorityQueue := rest }).2 := by
  have hq1 : (restoreBackgroundMusic
      { logCallback ctx (afterEndEvent h s) with priorityAudioRef := none }).priorityQueue
      = s.priorityQueue := by
    rw [restoreBackgroundMusic_priorityQueue]
    show (logCallback ctx (afterEndEvent h s)).priorityQueue = s.priorityQueue
    rw [logCallback_priorityQueue]
    rfl
  rw [hq] at hq1
  simp only [fireEnded, hh, enhancedOnEnd, hp, if_true, hq1]



lemma set_bg_elems (s : St) (bg : BackgroundMusicState) :
    ({ s with bgMusic := bg } : St).elems = s.elems := rfl

lemma set_bg_bg (s : St) (bg : BackgroundMusicState) :
    ({ s with bgMusic := bg } : St).bgMusic = bg := rfl

/-- Volume setBackgroundMusicVolume derives from the clamped request and the
current priority-audio state. -/
def bgVolChoice (v : ℚ) (s : St) : ℚ :=
  if hasPriorityAudio s && s.bgMusic.enableDucking then clamp01 v * (1/5)
  else clamp01 v

lemma setBackgroundMusicVolume_bg_audioRef (v : ℚ) (s : St) :
    (setBackgroundMusicVolume v s).bgMusic.audioRef = s.bgMusic.audioRef := by
  cases hb : s.bgMusic.audioRef <;> simp [setBackgroundMusicVolume, hb]

lemma setBackgroundMusicVolume_bg (v : ℚ) (b : Nat) (s : St)
    (hb : s.bgMusic.audioRef = some b) :
    (setBackgroundMusicVolume v s).bgMusic =
      { s.bgMusic with originalVolume := clamp01 v, volume := bgVolChoice v s } := by
  simp [setBackgroundMusicVolume, bgVolChoice, hb]

lemma setBackgroundMusicVolume_applied (v : ℚ) (b : Nat) (s : St)
    (hb : s.bgMusic.audioRef = some b) :
    ((setBackgroundMusicVolume v s).elems b).volume = bgVolChoice v s := by
  simp [setBackgroundMusicVolume, bgVolChoice, hb]

lemma setBackgroundMusicVolume_prio (v : ℚ) (s : St) :
    (setBackgroundMusicVolume v s).priorityAudioRef = s.priorityAudioRef := by
  cases hb : s.bgMusic.audioRef <;> simp [setBackgroundMusicVolume, hb]

lemma setBackgroundMusicVolume_paused (v : ℚ) (n : Nat) (s : St) :
    ((setBackgroundMusicVolume v s).elems n).paused = (s.elems n).paused := by
  cases hb : s.bgMusic.audioRef with
  | none => simp [setBackgroundMusicVolume, hb]
  | some b => by_cases hn : n = b <;> simp [setBackgroundMusicVolume, hb, hn]

lemma setBackgroundMusicVolume_currentTime (v : ℚ) (n : Nat) (s : St) :
    ((setBackgroundMusicVolume v s).elems n).currentTime = (s.elems n).currentTime := by
  cases hb : s.bgMusic.audioRef with
  | none => simp [setBackgroundMusicVolume, hb]
  | some b => by_cases hn : n = b <;> simp [setBackgroundMusicVolume, hb, hn]

lemma setBackgroundMusicVolume_duration (v : ℚ) (n : Nat) (s : St) :
    ((setBackgroundMusicVolume v s).elems n).duration = (s.elems n).duration := by
  cases hb : s.bgMusic.audioRef with
  | none => simp [setBackgroundMusicVolume, hb]
  | some b => by_cases hn : n = b <;> simp [setBackgroundMusicVolume, hb, hn]

lemma prioPhase_volume_no_duck (h n : Nat) (o : AudioControlOptions) (s : St)
    (hdk : s.bgMusic.enableDucking = false) :
    ((prioPhase h o s).elems n).volume = (s.elems n).volume := by
  unfold prioPhase
  by_cases ho : o.priority
  · cases hq : s.priorityAudioRef with
    | none =>
        simp only [ho, if_true, hq]
        rw [duckBackgroundMusic_skip_ducking { s with priorityAudioRef := some h } hdk]
    | some q =>
        simp only [ho, if_true, hq]
        rw [duckBackgroundMusic_skip_ducking
          { stopAudio q s with priorityAudioRef := some h } hdk]
        exact stopAudio_volume q n s
  · simp [ho]

lemma prioPhase_bg_no_duck (h : Nat) (o : AudioControlOptions) (s : St)
    (hdk : s.bgMusic.enableDucking = false) :
    (prioPhase h o s).bgMusic = s.bgMusic := by
  unfold prioPhase
  by_cases ho : o.priority
  · cases hq : s.priorityAudioRef with
    | none =>
        simp only [ho, if_true, hq]
        rw [duckBackgroundMusic_skip_ducking { s with priorityAudioRef := some h } hdk]
    | some q =>
        simp only [ho, if_true, hq]
        rw [duckBackgroundMusic_skip_ducking
          { stopAudio q s with priorityAudioRef := some h } hdk]
        rfl
  · simp [ho]

/-- Ducking decision of setBackgroundMusicDucking, expressed over the
pre-state (the recorded flag has just been replaced by e, the priority check
is unchanged). -/
def duckChoice (e : Bool) (b : Nat) (s : St) : ℚ :=
  if !e && hasPriorityAudio s then s.bgMusic.originalVolume
  else if e && hasPriorityAudio s then s.bgMusic.originalVolume * (1/5)
  else (s.elems b).volume

lemma setBackgroundMusicDucking_bg (e : Bool) (b : Nat) (s : St)
    (hb : s.bgMusic.audioRef = some b) :
    (setBackgroundMusicDucking e s).bgMusic =
      { s.bgMusic with enableDucking := e } := by
  simp only [setBackgroundMusicDucking, hb]
  split
  · rfl
  · split
    · rfl
    · rfl

lemma setBackgroundMusicDucking_prio (e : Bool) (s : St) :
    (setBackgroundMusicDucking e s).priorityAudioRef = s.priorityAudioRef := by
  cases hb : s.bgMusic.audioRef with
  | none => simp [setBackgroundMusicDucking, hb]
  | some b =>
      simp only [setBackgroundMusicDucking, hb]
      split
      · rfl
      · split
        · rfl
        · rfl

lemma setBackgroundMusicDucking_paused (e : Bool) (n : Nat) (s : St) :
    ((setBackgroundMusicDucking e s).elems n).paused = (s.elems n).paused := by
  cases hb : s.bgMusic.audioRef with
  | none => simp [setBackgroundMusicDucking, hb]
  | some b =>
      simp only [setBackgroundMusicDucking, hb]
      split
      · by_cases hn : n = b <;> simp [updE, hn]
      · split
        · by_cases hn : n = b <;> simp [updE, hn]
        · rfl

lemma setBackgroundMusicDucking_currentTime (e : Bool) (n : Nat) (s : St) :
    ((setBackgroundMusicDucking e s).elems n).currentTime = (s.elems n).currentTime := by
  cases hb : s.bgMusic.audioRef with
  | none => simp [setBackgroundMusicDucking, hb]
  | some b =>
      simp only [setBackgroundMusicDucking, hb]
      split
      · by_cases hn : n = b <;> simp [updE, hn]
      · split
        · by_cases hn : n = b <;> simp [updE, hn]
        · rfl

lemma setBackgroundMusicDucking_duration (e : Bool) (n : Nat) (s : St) :
    ((setBackgroundMusicDucking e s).elems n).duration = (s.elems n).duration := by
  cases hb : s.bgMusic.audioRef with
  | none => simp [setBackgroundMusicDucking, hb]
  | some b =>
      simp only [setBackgroundMusicDucking, hb]
      split
      · by_cases hn : n = b <;> simp [updE, hn]
      · split
        · by_cases hn : n = b <;> simp [updE, hn]
        · rfl

lemma setBackgroundMusicDucking_applied (e : Bool) (b : Nat) (s : St)
    (hb : s.bgMusic.audioRef = some b) :
    ((setBackgroundMusicDucking e s).elems b).volume = duckChoice e b s := by
  simp only [setBackgroundMusicDucking, hb]
  split
  · next h1 =>
      have h1x : (!e && hasPriorityAudio s) = true := h1
      simp [duckChoice, h1x, updE]
  · next h1 =>
      have h1x : (!e && hasPriorityAudio s) = false := by
        rw [Bool.not_eq_true] at h1
        exact h1
      split
      · next h2 =>
          have h2x : (e && hasPriorityAudio s) = true := h2
          simp [duckChoice, h1x, h2x, updE]
      · next h2 =>
          have h2x : (e && hasPriorityAudio s) = false := by
            rw [Bool.not_eq_true] at h2
            exact h2
          simp [duckChoice, h1x, h2x]


/-- Initial volume playBackgroundMusic computes for the new track. -/
def bgIV (h : Nat) (v : ℚ) (e : Bool) (s : St) : ℚ :=
  if hasPriorityAudio (setLoopTrue h (optStop s.bgMusic.audioRef s)) && e then
    clamp01 v * (1/5)
  else clamp01 v

/-- BackgroundMusicState record playBackgroundMusic installs on success. -/
def bgNew (h : Nat) (iv nv : ℚ) (e : Bool) : BackgroundMusicState :=
  { audioRef := some h, volume := iv, isPlaying := true,
    originalVolume := nv, enableDucking := e }

/-! Claim C2 (corrected). -/

/-- C2 counterexample chain, first step: background element 1 starts playing
at volume 4/5 with ducking enabled. -/
def v1 : St := playBackgroundMusic 1 (4/5) true true st0

/-- C2 counterexample chain, second step: a priority play of element 2 whose
device start fails — the duck was applied before the failure. -/
def v2 : St := (playAudio 2 { priority := true } false v1).2

/-- C2 counterexample: the invariant holds at v1, but the failing priority
play ducks the background while leaving no audible priority sound, so the
applied volume equals originalVolume * 0.2 where the invariant demands
originalVolume — the listed operation "play with priority" does not preserve
the invariant when its playback start fails. -/
theorem c2_invariant_broken_by_failed_priority_play :
    bgInvB v1 = true ∧
    hasPriorityAudio v2 = false ∧
    v2.bgMusic.isPlaying = true ∧
    v2.bgMusic.enableDucking = true ∧
    bgInvB v2 = false := by
  refine ⟨?_, rfl, rfl, rfl, ?_⟩
  · show (!true || decide ((v1.elems 1).volume = dueVolume v1)) = true
    have h0 : hasPriorityAudio v1 = false := rfl
    have hdv : dueVolume v1 = v1.bgMusic.originalVolume := by
      simp [dueVolume, h0]
    rw [hdv]
    show (!true || decide (clamp01 (4/5) = clamp01 (4/5))) = true
    simp
  · show (!true || decide ((v2.elems 1).volume = dueVolume v2)) = false
    have h0 : hasPriorityAudio v2 = false := rfl
    have hdv : dueVolume v2 = v2.bgMusic.originalVolume := by
      simp [dueVolume, h0]
    rw [hdv]
    show (!true || decide (clamp01 (4/5) * (1/5) = clamp01 (4/5))) = false
    have hcl : clamp01 (4/5) = 4/5 := by norm_num [clamp01]
    rw [hcl]
    simp only [Bool.not_true, Bool.false_or, decide_eq_false_iff_not]
    norm_num

lemma playBackgroundMusic_keeps_inv (h : Nat) (v : ℚ) (e : Bool) (s : St)
    (hph : s.priorityAudioRef ≠ some h) :
    bgInvB (playBackgroundMusic h v e true s) = true := by
  have hpost : playBackgroundMusic h v e true s =
      { startPlay h (setElemVolume h (bgIV h v e s)
          (setLoopTrue h (optStop s.bgMusic.audioRef s))) with
        bgMusic := bgNew h (bgIV h v e s) (clamp01 v) e } := rfl
  rw [hpost, bgInvB_eq_true_iff]
  intro b hb hpl
  rw [set_bg_bg] at hb
  have hbh : b = h := by
    have hx : some h = some b := hb
    exact (Option.some.inj hx).symm
  subst hbh
  rw [set_bg_elems, startPlay_volume, setElemVolume_volume_self]
  have hcongr : hasPriorityAudio
      ({ startPlay b (setElemVolume b (bgIV b v e s)
          (setLoopTrue b (optStop s.bgMusic.audioRef s))) with
        bgMusic := bgNew b (bgIV b v e s) (clamp01 v) e } : St) =
      hasPriorityAudio (setLoopTrue b (optStop s.bgMusic.audioRef s)) := by
    apply hasPriorityAudio_congr
    · rfl
    · intro q hq
      have hq' : s.priorityAudioRef = some q := by
        rw [← optStop_priorityAudioRef s.bgMusic.audioRef s]
        exact hq
      have hqh : q ≠ b := fun hEq => hph (hEq ▸ hq')
      rw [set_bg_elems]
      exact ⟨by rw [startPlay_paused_ne b q _ hqh, setElemVolume_paused],
        by rw [startPlay_currentTime, setElemVolume_currentTime],
        by rw [startPlay_duration, setElemVolume_duration]⟩
  simp only [dueVolume]
  rw [hcongr, set_bg_bg]
  simp only [bgNew]
  rfl

lemma setBackgroundMusicVolume_keeps_inv (v : ℚ) (s : St) :
    bgInvB (setBackgroundMusicVolume v s) = true := by
  rw [bgInvB_eq_true_iff]
  intro b hb hpl
  have hb0 : s.bgMusic.audioRef = some b := by
    rw [← setBackgroundMusicVolume_bg_audioRef v s]
    exact hb
  have hcongr : hasPriorityAudio (setBackgroundMusicVolume v s) = hasPriorityAudio s := by
    apply hasPriorityAudio_congr
    · exact setBackgroundMusicVolume_prio v s
    · intro q hq
      exact ⟨setBackgroundMusicVolume_paused v q s,
        setBackgroundMusicVolume_currentTime v q s,
        setBackgroundMusicVolume_duration v q s⟩
  rw [setBackgroundMusicVolume_applied v b s hb0]
  simp only [dueVolume, hcongr, setBackgroundMusicVolume_bg v b s hb0, bgVolChoice]

lemma setBackgroundMusicDucking_keeps_inv (e : Bool) (s : St)
    (hInv : bgInvB s = true) :
    bgInvB (setBackgroundMusicDucking e s) = true := by
  cases hb : s.bgMusic.audioRef with
  | none =>
      have hid : setBackgroundMusicDucking e s = s := by
        simp [setBackgroundMusicDucking, hb]
      rw [hid]
      exact hInv
  | some b =>
      rw [bgInvB_eq_true_iff]
      intro b2 hb2 hpl2
      have hbga := setBackgroundMusicDucking_bg e b s hb
      rw [hbga] at hb2
      have hx : some b = some b2 := by
        rw [← hb]
        exact hb2
      obtain rfl : b = b2 := Option.some.inj hx
      have hcongr : hasPriorityAudio (setBackgroundMusicDucking e s) =
          hasPriorityAudio s := by
        apply hasPriorityAudio_congr
        · exact setBackgroundMusicDucking_prio e s
        · intro q hq
          exact ⟨setBackgroundMusicDucking_paused e q s,
            setBackgroundMusicDucking_currentTime e q s,
            setBackgroundMusicDucking_duration e q s⟩
      rw [setBackgroundMusicDucking_applied e b s hb]
      have hdue : dueVolume (setBackgroundMusicDucking e s) =
          (if hasPriorityAudio s && e then s.bgMusic.originalVolume * (1/5)
           else s.bgMusic.originalVolume) := by
        simp [dueVolume, hcongr, hbga]
      rw [hdue]
      by_cases hP : hasPriorityAudio s = true
      · cases e with
        | true => simp [duckChoice, hP]
        | false => simp [duckChoice, hP]
      · have hPf : hasPriorityAudio s = false := by
          rw [← Bool.not_eq_true]
          exact hP
        have hpl0 : s.bgMusic.isPlaying = true := by
          rw [hbga] at hpl2
          exact hpl2
        have hpre := (bgInvB_eq_true_iff s).1 hInv b hb hpl0
        have hdue0 : dueVolume s = s.bgMusic.originalVolume := by
          simp [dueVolume, hPf]
        simp [duckChoice, hPf, hpre, hdue0]

lemma playAudio_priority_keeps_inv (h : Nat) (opts : AudioControlOptions) (s : St)
    (hInv : bgInvB s = true) (ho : opts.priority = true)
    (hct : (s.elems h).currentTime = 0) (hdur : 0 < (s.elems h).duration)
    (hbh : s.bgMusic.audioRef ≠ some h) :
    bgInvB (playAudio h opts true s).2 = true := by
  have hadm : (!opts.ignorePriority && hasPriorityAudio s && !opts.priority) = false := by
    simp [ho]
  have hbg := playAudio_admitted_bgMusic h opts true s hadm
  have hasPpost := playAudio_success_hasP h opts s ho hct hdur
  rw [bgInvB_eq_true_iff]
  intro b hb hpl
  have hb0 : s.bgMusic.audioRef = some b := by
    rw [hbg, prioPhase_bg_audioRef] at hb
    exact hb
  have hbneh : b ≠ h := fun hEq => hbh (hEq ▸ hb0)
  have hpl0 : s.bgMusic.isPlaying = true := by
    rw [hbg, prioPhase_bg_isPlaying] at hpl
    exact hpl
  have happ0 : ((playAudio h opts true s).2.elems b).volume =
      ((prioPhase h opts s).elems b).volume := by
    rw [playAudio_admitted_elems_ne h b opts true s hadm hbneh, configureAudio_volume,
      stopPrevPhase_volume]
  by_cases hdk : s.bgMusic.enableDucking = true
  · have hduck : ((prioPhase h opts s).elems b).volume = s.bgMusic.volume * (1/5) ∧
        (prioPhase h opts s).bgMusic.originalVolume = s.bgMusic.volume := by
      cases hq : s.priorityAudioRef with
      | none =>
          rw [prioPhase_slot_empty h opts s ho hq]
          exact duckBackgroundMusic_applied b _ hb0 hpl0 hdk
      | some q =>
          rw [prioPhase_some h q opts s ho hq]
          exact duckBackgroundMusic_applied b _ hb0 hpl0 hdk
    have hdkpost : (playAudio h opts true s).2.bgMusic.enableDucking = true := by
      rw [hbg, prioPhase_bg_enableDucking]
      exact hdk
    have horig : (playAudio h opts true s).2.bgMusic.originalVolume =
        s.bgMusic.volume := by
      rw [hbg]
      exact hduck.2
    rw [happ0, hduck.1]
    simp [dueVolume, hasPpost, hdkpost, horig]
  · have hdkf : s.bgMusic.enableDucking = false := by
      rw [← Bool.not_eq_true]
      exact hdk
    have happ : ((prioPhase h opts s).elems b).volume = (s.elems b).volume :=
      prioPhase_volume_no_duck h b opts s hdkf
    have hbgp : (prioPhase h opts s).bgMusic = s.bgMusic :=
      prioPhase_bg_no_duck h opts s hdkf
    have hpre := (bgInvB_eq_true_iff s).1 hInv b hb0 hpl0
    have hdue0 : dueVolume s = s.bgMusic.originalVolume := by
      simp [dueVolume, hdkf]
    have hdkpost : (playAudio h opts true s).2.bgMusic.enableDucking = false := by
      rw [hbg, hbgp]
      exact hdkf
    have horig : (playAudio h opts true s).2.bgMusic.originalVolume =
        s.bgMusic.originalVolume := by
      rw [hbg, hbgp]
    rw [happ0, happ, hpre, hdue0]
    simp [dueVolume, hdkpost, horig]

lemma fireEnded_keeps_inv (h : Nat) (ctx : Handler) (s : St)
    (hInv : bgInvB s = true) (hh : s.handlers h = some ctx) (hp : ctx.priority = true)
    (hfront : ∀ a o rest, s.priorityQueue = (a, o) :: rest →
      o.priority = false ∧ s.bgMusic.audioRef ≠ some a) :
    bgInvB (fireEnded h true s) = true := by
  have hbg1 : (restoreBackgroundMusic
      { logCallback ctx (afterEndEvent h s) with priorityAudioRef := none }).bgMusic
      = s.bgMusic := by
    rw [restoreBackgroundMusic_bgMusic]
    show (logCallback ctx (afterEndEvent h s)).bgMusic = s.bgMusic
    rw [logCallback_bgMusic]
    rfl
  have hprio1 : (restoreBackgroundMusic
      { logCallback ctx (afterEndEvent h s) with
        priorityAudioRef := none }).priorityAudioRef = none := by
    rw [restoreBackgroundMusic_priorityAudioRef]
  have hasP1 := hasPriorityAudio_of_none _ hprio1
  have hbg0 : ({ logCallback ctx (afterEndEvent h s) with
      priorityAudioRef := none } : St).bgMusic = s.bgMusic := by
    show (logCallback ctx (afterEndEvent h s)).bgMusic = s.bgMusic
    rw [logCallback_bgMusic]
    rfl
  have hvol1 : ∀ b, s.bgMusic.audioRef = some b → s.bgMusic.isPlaying = true →
      ((restoreBackgroundMusic
        { logCallback ctx (afterEndEvent h s) with
          priorityAudioRef := none }).elems b).volume = s.bgMusic.originalVolume := by
    intro b hb hpl
    by_cases hdk : s.bgMusic.enableDucking = true
    · have hx := restoreBackgroundMusic_applied b
        { logCallback ctx (afterEndEvent h s) with priorityAudioRef := none }
        (by rw [hbg0]; exact hb) (by rw [hbg0]; exact hpl) (by rw [hbg0]; exact hdk)
      rw [hbg0] at hx
      exact hx
    · have hdkf : s.bgMusic.enableDucking = false := by
        rw [← Bool.not_eq_true]
        exact hdk
      rw [restoreBackgroundMusic_skip_ducking
        { logCallback ctx (afterEndEvent h s) with priorityAudioRef := none }
        (by rw [hbg0]; exact hdkf)]
      have he : ({ logCallback ctx (afterEndEvent h s) with
          priorityAudioRef := none } : St).elems = (afterEndEvent h s).elems := by
        show (logCallback ctx (afterEndEvent h s)).elems = (afterEndEvent h s).elems
        rw [logCallback_elems]
      rw [he, afterEndEvent_volume]
      have hpre := (bgInvB_eq_true_iff s).1 hInv b hb hpl
      have hdue0 : dueVolume s = s.bgMusic.originalVolume := by
        simp [dueVolume, hdkf]
      rw [hpre, hdue0]
  have hinv1 : bgInvB (restoreBackgroundMusic
      { logCallback ctx (afterEndEvent h s) with priorityAudioRef := none }) = true := by
    rw [bgInvB_eq_true_iff]
    intro b hb1 hpl1
    rw [hbg1] at hb1 hpl1
    rw [hvol1 b hb1 hpl1]
    simp [dueVolume, hasP1, hbg1]
  cases hq : s.priorityQueue with
  | nil =>
      rw [fireEnded_nil h ctx true s hh hp hq]
      exact hinv1
  | cons front rest =>
      obtain ⟨a, o⟩ := front
      obtain ⟨ho, hna⟩ := hfront a o rest hq
      rw [fireEnded_cons h ctx true s a o rest hh hp hq]
      have hadm : (!({ o with ignorePriority := true } : AudioControlOptions).ignorePriority &&
          hasPriorityAudio { restoreBackgroundMusic
            { logCallback ctx (afterEndEvent h s) with priorityAudioRef := none } with
            priorityQueue := rest } &&
          !({ o with ignorePriority := true } : AudioControlOptions).priority) = false := by
        simp
      have ho' : ({ o with ignorePriority := true } : AudioControlOptions).priority = false := ho
      rw [bgInvB_eq_true_iff]
      intro b hb2 hpl2
      have hbgpost : (playAudio a { o with ignorePriority := true } true
          { restoreBackgroundMusic
            { logCallback ctx (afterEndEvent h s) with priorityAudioRef := none } with
            priorityQueue := rest }).2.bgMusic = s.bgMusic := by
        rw [playAudio_admitted_bgMusic a _ true _ hadm, prioPhase_not a _ _ ho']
        exact hbg1
      rw [hbgpost] at hb2 hpl2
      have hban : b ≠ a := fun hEq => hna (hEq ▸ hb2)
      have happ := playAudio_nonpriority_volume a b { o with ignorePriority := true }
        true _ hadm ho' hban
      have hprioPost : (playAudio a { o with ignorePriority := true } true
          { restoreBackgroundMusic
            { logCallback ctx (afterEndEvent h s) with priorityAudioRef := none } with
            priorityQueue := rest }).2.priorityAudioRef = none := by
        rw [playAudio_nonpriority_priorityAudioRef a _ true _ hadm ho']
        exact hprio1
      have hasPpost := hasPriorityAudio_of_none _ hprioPost
      rw [happ]
      have hvol : (({ restoreBackgroundMusic
          { logCallback ctx (afterEndEvent h s) with priorityAudioRef := none } with
          priorityQueue := rest } : St).elems b).volume = s.bgMusic.originalVolume := by
        show ((restoreBackgroundMusic
          { logCallback ctx (afterEndEvent h s) with
            priorityAudioRef := none }).elems b).volume = s.bgMusic.originalVolume
        exact hvol1 b hb2 hpl2
      rw [hvol]
      simp [dueVolume, hasPpost, hbgpost]

/-- C2 amended: the background-volume invariant — whenever a track is
tracked and playing, the applied volume equals originalVolume * 0.2 exactly
when a priority sound is audible with ducking enabled and originalVolume
otherwise — is preserved by playBackgroundMusic, setBackgroundMusicVolume,
setBackgroundMusicDucking, a priority play, and a priority completion,
provided every playback start involved succeeds; a failing start can leave
the background ducked with no audible priority sound. Side conditions bind
distinct roles to distinct elements: the new background handle is not in the
priority slot, the priority handle starts at position 0 with positive
duration and is not the background element, and a queued front entry is
non-priority and not the background element. -/
theorem c2_ducking_invariant_preserved (s : St) (hInv : bgInvB s = true) :
    (∀ h v e, s.priorityAudioRef ≠ some h →
      bgInvB (playBackgroundMusic h v e true s) = true) ∧
    (∀ v, bgInvB (setBackgroundMusicVolume v s) = true) ∧
    (∀ e, bgInvB (setBackgroundMusicDucking e s) = true) ∧
    (∀ h opts, opts.priority = true → (s.elems h).currentTime = 0 →
      0 < (s.elems h).duration → s.bgMusic.audioRef ≠ some h →
      bgInvB (playAudio h opts true s).2 = true) ∧
    (∀ h ctx, s.handlers h = some ctx → ctx.priority = true →
      (∀ a o rest, s.priorityQueue = (a, o) :: rest →
        o.priority = false ∧ s.bgMusic.audioRef ≠ some a) →
      bgInvB (fireEnded h true s) = true) := by
  refine ⟨?_, ?_, ?_, ?_, ?_⟩
  · intro h v e hph
    exact playBackgroundMusic_keeps_inv h v e s hph
  · intro v
    exact setBackgroundMusicVolume_keeps_inv v s
  · intro e
    exact setBackgroundMusicDucking_keeps_inv e s hInv
  · intro h opts ho hct hdur hbh
    exact playAudio_priority_keeps_inv h opts s hInv ho hct hdur hbh
  · intro h ctx hh hp hfr
    exact fireEnded_keeps_inv h ctx s hInv hh hp hfr

/-- Concrete state for the C2 witness: background element 3 playing at unit
volume with ducking on, a priority handler installed on element 5. -/
def wc : St :=
  { elems := fun n => if n = 3 then { paused := false, duration := 10 }
                      else { duration := 10 },
    bgMusic := { audioRef := some 3, volume := 1, isPlaying := true,
                 originalVolume := 1, enableDucking := true },
    handlers := fun n => if n = 5 then some { onEnd := none, priority := true }
                         else none }

/-- C2 witness: the invariant holds at wc and is preserved by each listed
operation instantiated there. -/
theorem c2_ducking_invariant_preserved_witness :
    bgInvB wc = true ∧
    bgInvB (playBackgroundMusic 2 (1/2) true true wc) = true ∧
    bgInvB (setBackgroundMusicVolume (1/2) wc) = true ∧
    bgInvB (setBackgroundMusicDucking false wc) = true ∧
    bgInvB (playAudio 9 { priority := true } true wc).2 = true ∧
    bgInvB (fireEnded 5 true wc) = true := by
  have hc := c2_ducking_invariant_preserved wc (by decide)
  exact ⟨by decide, hc.1 2 (1/2) true (by decide), hc.2.1 (1/2), hc.2.2.1 false,
    hc.2.2.2.1 9 { priority := true } rfl (by decide) (by decide) (by decide),
    hc.2.2.2.2 5 { onEnd := none, priority := true } (by decide) rfl
      (fun a o rest hq => nomatch hq)⟩

end AudioControl


